import Mathlib

/-
Verification of the Mart-Bank console program (src/code.py): a shallow
embedding of its data model (pydantic models), its TinyDB access layer,
and its ledger operations (deposit, withdraw, transfer, store checkout),
login lockout, transaction-PIN verification, cart manipulation, the
system-configuration singleton, and JSON serialization of the persisted
documents.

Modelling conventions:
- Money amounts (the `moneyed` Money objects, fixed currency IDR) are
  rational numbers; `JsonSafeMoney` serializes them as their plain
  numeric amount.
- Clock reads (`datetime.datetime.now()`) inside a single operation are
  modelled as one abstract instant `now : Int` (seconds); the 5-minute
  lock duration is 300 seconds.
- The bcrypt credential verifier is opaque; a hash is modelled by the
  secret itself, so `pwd_context.verify(s, h)` is `s == h`.
- Console prompts are modelled as explicit arguments: the stream of PIN
  entries is a function `Nat -> String`, the y/n confirmation a Bool.
- Fresh uuid4 ids are passed in as explicit `txid` / `oid` arguments.
-/

abbrev Money := ℚ

/-- BATAS_PERCOBAAN_LOGIN: maximum failed logins before the account locks. -/
def BATAS_PERCOBAAN_LOGIN : ℤ := 3

/-- DURASI_KUNCI_AKUN_MENIT * 60: lock duration in seconds. -/
def DURASI_KUNCI_AKUN_DETIK : ℤ := 5 * 60

/-- Fixed id of the single system-configuration document. -/
def SYSTEM_CONFIG_ID : String := "system_main_config"

/-- KATEGORI_PRODUK_DEFAULT. -/
def KATEGORI_PRODUK_DEFAULT : List String :=
  ["Makanan Ringan", "Minuman", "Kebutuhan Pokok", "Perlengkapan Mandi",
   "Produk Segar", "Elektronik Rumah Tangga", "Lainnya"]

/-- ItemKeranjang: one cart line (product id, name snapshot, unit-price
snapshot, quantity). -/
structure ItemKeranjang where
  produk_id : String
  nama_produk : String
  harga_satuan : Money
  jumlah : ℤ
deriving Repr, DecidableEq

/-- ItemKeranjang.subtotal: unit price times quantity. -/
def ItemKeranjang.subtotal (it : ItemKeranjang) : Money :=
  it.harga_satuan * (it.jumlah : ℚ)

/-- TransaksiBank, parametric in the timestamp type. -/
structure TransaksiBank (τ : Type) where
  id : String
  user_id_sumber : String
  user_id_tujuan : Option String
  jenis_transaksi : String
  jumlah : Money
  keterangan : String
  timestamp : τ
  saldo_akhir_sumber : Money
  saldo_akhir_tujuan : Option Money
deriving Repr, DecidableEq

/-- PesananToko, parametric in the timestamp type. -/
structure PesananToko (τ : Type) where
  id : String
  user_id : String
  items_pesanan : List ItemKeranjang
  total_harga : Money
  metode_pembayaran : String
  status_pesanan : String
  timestamp : τ
deriving Repr, DecidableEq

/-- Pengguna (account), parametric in the timestamp type. -/
structure Pengguna (τ : Type) where
  id : String
  username : String
  password_hash : String
  pin_hash : Option String
  peran : String
  nama_lengkap : Option String
  email : Option String
  saldo_bank : Money
  riwayat_transaksi_bank_ids : List String
  riwayat_pesanan_toko_ids : List String
  gagal_login_count : ℤ
  akun_terkunci_hingga : Option τ
  dibuat_pada : τ
deriving Repr, DecidableEq

/-- Produk, parametric in the timestamp type. -/
structure Produk (τ : Type) where
  id : String
  nama : String
  harga : Money
  stok : ℤ
  kategori : String
  deskripsi : String
  dibuat_pada : τ
  diperbarui_pada : τ
deriving Repr, DecidableEq

/-- The four persisted TinyDB tables (pengguna, produk, transaksi_bank,
pesanan_toko), with timestamps as abstract instants. -/
structure BankState where
  pengguna : List (Pengguna ℤ)
  produk : List (Produk ℤ)
  transaksi_bank : List (TransaksiBank ℤ)
  pesanan_toko : List (PesananToko ℤ)
deriving Repr, DecidableEq

/-- TinyDB `table.upsert(doc, cond)`: update every document matching
`cond` with `doc`, or insert `doc` when nothing matches. -/
def tinydb_upsert {α : Type} (tbl : List α) (cond : α → Bool) (doc : α) : List α :=
  if tbl.any cond then tbl.map (fun d => if cond d then doc else d) else tbl ++ [doc]

/-- dapatkan_pengguna_by_id. -/
def dapatkan_pengguna_by_id (st : BankState) (user_id : String) : Option (Pengguna ℤ) :=
  st.pengguna.find? (fun p => p.id == user_id)

/-- Python str.lower(), character by character (usernames are validated
to ASCII alphanumerics and underscores). -/
def str_lower (s : String) : String :=
  String.mk (s.data.map Char.toLower)

/-- dapatkan_pengguna_by_username: case-insensitive username lookup. -/
def dapatkan_pengguna_by_username (st : BankState) (username : String) : Option (Pengguna ℤ) :=
  st.pengguna.find? (fun p => str_lower p.username == str_lower username)

/-- simpan_pengguna: upsert on the account id. -/
def simpan_pengguna (st : BankState) (p : Pengguna ℤ) : BankState :=
  { st with pengguna := tinydb_upsert st.pengguna (fun d => d.id == p.id) p }

/-- dapatkan_produk_by_id. -/
def dapatkan_produk_by_id (st : BankState) (produk_id : String) : Option (Produk ℤ) :=
  st.produk.find? (fun p => p.id == produk_id)

/-- simpan_produk: bumps diperbarui_pada, then upserts on the product id. -/
def simpan_produk (st : BankState) (p : Produk ℤ) (now : ℤ) : BankState :=
  { st with produk :=
      tinydb_upsert st.produk (fun d => d.id == p.id) { p with diperbarui_pada := now } }

/-- simpan_transaksi_bank: plain insert. -/
def simpan_transaksi_bank (st : BankState) (t : TransaksiBank ℤ) : BankState :=
  { st with transaksi_bank := st.transaksi_bank ++ [t] }

/-- simpan_pesanan_toko: plain insert. -/
def simpan_pesanan_toko (st : BankState) (o : PesananToko ℤ) : BankState :=
  { st with pesanan_toko := st.pesanan_toko ++ [o] }

/-- Pengguna.verifikasi_password (bcrypt verify, opaque verifier). -/
def verifikasi_password (p : Pengguna ℤ) (password : String) : Bool :=
  password == p.password_hash

/-- Pengguna.verifikasi_pin: verifies only when a PIN hash is set. -/
def verifikasi_pin (p : Pengguna ℤ) (pin : String) : Bool :=
  match p.pin_hash with
  | some h => pin == h
  | none => false

/-- minta_pin_transaksi: deny outright when no PIN is set, otherwise
allow up to three attempts, succeeding at the first correct entry. -/
def minta_pin_transaksi (pengguna_obj : Pengguna ℤ) (pins : ℕ → String) : Bool :=
  match pengguna_obj.pin_hash with
  | none => false
  | some _ =>
      verifikasi_pin pengguna_obj (pins 0) || verifikasi_pin pengguna_obj (pins 1) ||
        verifikasi_pin pengguna_obj (pins 2)

/-- deposit_bank: reject non-positive amounts, otherwise credit the
balance, record one Deposit transaction, append its id to the account
history and persist transaction then account.  No PIN is consulted. -/
def deposit_bank (st : BankState) (user_id : String) (jumlah_deposit : Money)
    (txid : String) (now : ℤ) : BankState × Bool :=
  match dapatkan_pengguna_by_id st user_id with
  | none => (st, false)
  | some u =>
      if jumlah_deposit ≤ 0 then (st, false)
      else
        let saldo_baru := u.saldo_bank + jumlah_deposit
        let transaksi : TransaksiBank ℤ :=
          { id := txid, user_id_sumber := u.id, user_id_tujuan := none,
            jenis_transaksi := "Deposit", jumlah := jumlah_deposit,
            keterangan := "Setoran ke akun", timestamp := now,
            saldo_akhir_sumber := saldo_baru, saldo_akhir_tujuan := none }
        let u' := { u with saldo_bank := saldo_baru,
                           riwayat_transaksi_bank_ids := u.riwayat_transaksi_bank_ids ++ [txid] }
        (simpan_pengguna (simpan_transaksi_bank st transaksi) u', true)

/-- withdraw_bank: reject non-positive amounts, then amounts above the
balance (before any PIN prompt), then a failed PIN; otherwise debit the
balance, record one Withdraw transaction and persist. -/
def withdraw_bank (st : BankState) (user_id : String) (jumlah_tarik : Money)
    (pins : ℕ → String) (txid : String) (now : ℤ) : BankState × Bool :=
  match dapatkan_pengguna_by_id st user_id with
  | none => (st, false)
  | some u =>
      if jumlah_tarik ≤ 0 then (st, false)
      else if u.saldo_bank < jumlah_tarik then (st, false)
      else if minta_pin_transaksi u pins then
        let saldo_baru := u.saldo_bank - jumlah_tarik
        let transaksi : TransaksiBank ℤ :=
          { id := txid, user_id_sumber := u.id, user_id_tujuan := none,
            jenis_transaksi := "Withdraw", jumlah := jumlah_tarik,
            keterangan := "Penarikan dari akun", timestamp := now,
            saldo_akhir_sumber := saldo_baru, saldo_akhir_tujuan := none }
        let u' := { u with saldo_bank := saldo_baru,
                           riwayat_transaksi_bank_ids := u.riwayat_transaksi_bank_ids ++ [txid] }
        (simpan_pengguna (simpan_transaksi_bank st transaksi) u', true)
      else (st, false)

/-- transfer_dana_bank: reject a case-insensitive self-transfer, an
unknown destination, a non-positive amount, an amount above the source
balance, and a failed PIN; otherwise move the amount, record one shared
Transfer transaction referenced from both histories, and persist the
transaction, the source and the destination. -/
def transfer_dana_bank (st : BankState) (user_id : String) (username_tujuan : String)
    (jumlah_transfer : Money) (pins : ℕ → String) (txid : String) (now : ℤ) :
    BankState × Bool :=
  match dapatkan_pengguna_by_id st user_id with
  | none => (st, false)
  | some sumber =>
      if str_lower username_tujuan == str_lower sumber.username then (st, false)
      else
        match dapatkan_pengguna_by_username st username_tujuan with
        | none => (st, false)
        | some tujuan =>
            if jumlah_transfer ≤ 0 then (st, false)
            else if sumber.saldo_bank < jumlah_transfer then (st, false)
            else if minta_pin_transaksi sumber pins then
              let sumber' := { sumber with
                saldo_bank := sumber.saldo_bank - jumlah_transfer,
                riwayat_transaksi_bank_ids := sumber.riwayat_transaksi_bank_ids ++ [txid] }
              let tujuan' := { tujuan with
                saldo_bank := tujuan.saldo_bank + jumlah_transfer,
                riwayat_transaksi_bank_ids := tujuan.riwayat_transaksi_bank_ids ++ [txid] }
              let transaksi : TransaksiBank ℤ :=
                { id := txid, user_id_sumber := sumber.id, user_id_tujuan := some tujuan.id,
                  jenis_transaksi := "Transfer", jumlah := jumlah_transfer,
                  keterangan := "Transfer ke " ++ tujuan.username, timestamp := now,
                  saldo_akhir_sumber := sumber'.saldo_bank,
                  saldo_akhir_tujuan := some tujuan'.saldo_bank }
              (simpan_pengguna (simpan_pengguna (simpan_transaksi_bank st transaksi) sumber') tujuan',
               true)
            else (st, false)

/-- KeranjangBelanja.total_belanja: sum of the line subtotals. -/
def total_belanja (items : List ItemKeranjang) : Money :=
  items.foldl (fun acc it => acc + it.subtotal) 0

/-- The final stock re-validation of checkout: every cart line must find
its live product and the live stock must cover the line quantity. -/
def stok_semua_cukup (st : BankState) (items : List ItemKeranjang) : Bool :=
  items.all (fun it =>
    match dapatkan_produk_by_id st it.produk_id with
    | none => false
    | some produk_db => decide (it.jumlah ≤ produk_db.stok))

/-- The `produk_yang_diubah` list of checkout: the live products fetched
for the cart lines. -/
def produk_yang_diubah (st : BankState) (items : List ItemKeranjang) : List (Produk ℤ) :=
  items.filterMap (fun it => dapatkan_produk_by_id st it.produk_id)

/-- The in-memory stock decrement of checkout: the first product in the
list with the given id loses `jumlah` stock and gets a fresh
diperbarui_pada. -/
def kurangi_stok_pertama (ps : List (Produk ℤ)) (pid : String) (jumlah : ℤ) (now : ℤ) :
    List (Produk ℤ) :=
  match ps with
  | [] => []
  | p :: rest =>
      if p.id == pid then { p with stok := p.stok - jumlah, diperbarui_pada := now } :: rest
      else p :: kurangi_stok_pertama rest pid jumlah now

/-- The full stock-decrement loop of checkout over all cart lines. -/
def kurangi_stok_semua (items : List ItemKeranjang) (ps : List (Produk ℤ)) (now : ℤ) :
    List (Produk ℤ) :=
  items.foldl (fun acc it => kurangi_stok_pertama acc it.produk_id it.jumlah now) ps

/-- proses_pembayaran_toko: checkout of the session cart.  Rejects an
empty cart, an insufficient balance, a declined confirmation, a failed
PIN, and a failed final stock re-validation, in that order and with no
mutation; otherwise decrements all stocks, debits the total, creates one
Pembayaran-Toko transaction and one order, appends both ids to the
buyer's histories, persists everything and clears the cart.  Returns the
new state, the new cart and the success flag. -/
def proses_pembayaran_toko (st : BankState) (user_id : String)
    (items : List ItemKeranjang) (konfirmasi : Bool) (pins : ℕ → String)
    (txid oid : String) (now : ℤ) : BankState × List ItemKeranjang × Bool :=
  match dapatkan_pengguna_by_id st user_id with
  | none => (st, items, false)
  | some u =>
      if items.isEmpty then (st, items, false)
      else
        let total_bayar := total_belanja items
        if u.saldo_bank < total_bayar then (st, items, false)
        else if !konfirmasi then (st, items, false)
        else if !minta_pin_transaksi u pins then (st, items, false)
        else if stok_semua_cukup st items then
          let diubah := kurangi_stok_semua items (produk_yang_diubah st items) now
          let saldo_baru := u.saldo_bank - total_bayar
          let transaksi_pembayaran : TransaksiBank ℤ :=
            { id := txid, user_id_sumber := u.id, user_id_tujuan := none,
              jenis_transaksi := "Pembayaran Toko", jumlah := total_bayar,
              keterangan := "Pembelian di Bear Mart", timestamp := now,
              saldo_akhir_sumber := saldo_baru, saldo_akhir_tujuan := none }
          let pesanan_baru : PesananToko ℤ :=
            { id := oid, user_id := u.id, items_pesanan := items,
              total_harga := total_bayar, metode_pembayaran := "Bank Bear Mart",
              status_pesanan := "Selesai", timestamp := now }
          let u' := { u with
            saldo_bank := saldo_baru,
            riwayat_transaksi_bank_ids := u.riwayat_transaksi_bank_ids ++ [txid],
            riwayat_pesanan_toko_ids := u.riwayat_pesanan_toko_ids ++ [oid] }
          let st1 := simpan_pengguna
            (simpan_pesanan_toko (simpan_transaksi_bank st transaksi_pembayaran) pesanan_baru) u'
          (diubah.foldl (fun s pr => simpan_produk s pr now) st1, [], true)
        else (st, items, false)

/-- Whether a login attempt finds the account locked: the lock timestamp
is set and still in the future. -/
def lock_aktif (p : Pengguna ℤ) (now : ℤ) : Bool :=
  match p.akun_terkunci_hingga with
  | some t => now < t
  | none => false

/-- login_pengguna: reject an unknown username or an active lock without
mutation; a correct password resets the failed counter and clears the
lock; a wrong password increments the counter and, at the threshold,
sets the 5-minute lock.  Every counter/lock change is persisted. -/
def login_pengguna (st : BankState) (username password : String) (now : ℤ) :
    BankState × Bool :=
  match dapatkan_pengguna_by_username st username with
  | none => (st, false)
  | some pengguna =>
      if lock_aktif pengguna now then (st, false)
      else if verifikasi_password pengguna password then
        (simpan_pengguna st
          { pengguna with gagal_login_count := 0, akun_terkunci_hingga := none }, true)
      else
        let count' := pengguna.gagal_login_count + 1
        if BATAS_PERCOBAAN_LOGIN ≤ count' then
          (simpan_pengguna st
            { pengguna with gagal_login_count := count',
                            akun_terkunci_hingga := some (now + DURASI_KUNCI_AKUN_DETIK) }, false)
        else
          (simpan_pengguna st { pengguna with gagal_login_count := count' }, false)

/-- The jumlah update of KeranjangBelanja.tambah_item on the one
existing line with the given product id. -/
def tambah_jumlah_pertama (items : List ItemKeranjang) (pid : String) (jumlah : ℤ) :
    List ItemKeranjang :=
  match items with
  | [] => []
  | it :: rest =>
      if it.produk_id == pid then { it with jumlah := it.jumlah + jumlah } :: rest
      else it :: tambah_jumlah_pertama rest pid jumlah

/-- KeranjangBelanja.tambah_item: ignore non-positive quantities; add to
the existing line's quantity when the product is already in the cart
(keeping its original price snapshot), otherwise append a fresh line
snapshotting the current catalog price. -/
def tambah_item (items : List ItemKeranjang) (produk : Produk ℤ) (jumlah : ℤ) :
    List ItemKeranjang :=
  if jumlah ≤ 0 then items
  else
    match items.find? (fun it => it.produk_id == produk.id) with
    | some _ => tambah_jumlah_pertama items produk.id jumlah
    | none =>
        items ++ [{ produk_id := produk.id, nama_produk := produk.nama,
                    harga_satuan := produk.harga, jumlah := jumlah }]

/-- A ledger operation as invokable from the menus, with all console
input captured in the constructor arguments. -/
inductive Op where
  | deposit (user_id : String) (jumlah : Money) (txid : String) (now : ℤ)
  | withdraw (user_id : String) (jumlah : Money) (pins : ℕ → String) (txid : String) (now : ℤ)
  | transfer (user_id : String) (username_tujuan : String) (jumlah : Money)
      (pins : ℕ → String) (txid : String) (now : ℤ)
  | checkout (user_id : String) (items : List ItemKeranjang) (konfirmasi : Bool)
      (pins : ℕ → String) (txid : String) (oid : String) (now : ℤ)

/-- Run one ledger operation against the persisted state. -/
def applyOp (st : BankState) : Op → BankState
  | .deposit uid j txid now => (deposit_bank st uid j txid now).1
  | .withdraw uid j pins txid now => (withdraw_bank st uid j pins txid now).1
  | .transfer uid tujuan j pins txid now => (transfer_dana_bank st uid tujuan j pins txid now).1
  | .checkout uid items k pins txid oid now =>
      (proses_pembayaran_toko st uid items k pins txid oid now).1

/-- The session cart is a dict keyed on product id, so the cart an
operation receives never repeats a product id. -/
def Op.wf : Op → Prop
  | .checkout _ items _ _ _ _ _ => (items.map (fun it => it.produk_id)).Nodup
  | _ => True

/-- Every account balance and every product stock is non-negative. -/
def NonNegState (st : BankState) : Prop :=
  (∀ p ∈ st.pengguna, 0 ≤ p.saldo_bank) ∧ (∀ pr ∈ st.produk, 0 ≤ pr.stok)

instance : DecidablePred NonNegState := fun st => by
  unfold NonNegState; infer_instance

/-- A schemaless system-configuration document: every field may be
missing from storage. -/
structure KonfigDoc where
  id : Option String
  nama_toko : Option String
  kategori_produk : Option (List String)
  admin_dibuat : Option Bool
  setup_selesai : Option Bool
deriving Repr, DecidableEq

/-- The hard-coded default configuration document. -/
def default_config : KonfigDoc :=
  { id := some SYSTEM_CONFIG_ID, nama_toko := some "Bear Mart",
    kategori_produk := some KATEGORI_PRODUK_DEFAULT,
    admin_dibuat := some false, setup_selesai := some false }

/-- The read-time merge of dapatkan_konfigurasi: start from the default
shape, overwrite with every field present in the stored document, then
force the constant id. -/
def merge_config (c : KonfigDoc) : KonfigDoc :=
  { id := some SYSTEM_CONFIG_ID,
    nama_toko := some (c.nama_toko.getD "Bear Mart"),
    kategori_produk := some (c.kategori_produk.getD KATEGORI_PRODUK_DEFAULT),
    admin_dibuat := some (c.admin_dibuat.getD false),
    setup_selesai := some (c.setup_selesai.getD false) }

/-- dapatkan_konfigurasi: on an empty table, truncate and insert the
default document and return it; otherwise return the first stored
document merged over the defaults, leaving the table alone. -/
def dapatkan_konfigurasi (tbl : List KonfigDoc) : KonfigDoc × List KonfigDoc :=
  match tbl with
  | [] => (default_config, [default_config])
  | c :: _ => (merge_config c, tbl)

/-- simpan_konfigurasi: force the constant id onto the document, then
upsert on that constant id. -/
def simpan_konfigurasi (tbl : List KonfigDoc) (config_data : KonfigDoc) : List KonfigDoc :=
  let c := if config_data.id == some SYSTEM_CONFIG_ID then config_data
           else { config_data with id := some SYSTEM_CONFIG_ID }
  tinydb_upsert tbl (fun d => d.id == some SYSTEM_CONFIG_ID) c

/-- An access to the configuration store: a read or a save. -/
inductive ConfigOp where
  | read
  | save (config_data : KonfigDoc)
deriving Repr

/-- Run one configuration access against the konfigurasi table. -/
def applyConfigOp (tbl : List KonfigDoc) : ConfigOp → List KonfigDoc
  | .read => (dapatkan_konfigurasi tbl).2
  | .save c => simpan_konfigurasi tbl c

/-- A wall-clock timestamp as stored in the pydantic models. -/
structure DateTime where
  year : ℕ
  month : ℕ
  day : ℕ
  hour : ℕ
  minute : ℕ
  second : ℕ
  microsecond : ℕ
deriving Repr, DecidableEq

/-- Zero-pad to two digits. -/
def pad2 (n : ℕ) : String :=
  if n < 10 then "0" ++ toString n else toString n

/-- Zero-pad to four digits. -/
def pad4 (n : ℕ) : String :=
  if n < 10 then "000" ++ toString n
  else if n < 100 then "00" ++ toString n
  else if n < 1000 then "0" ++ toString n
  else toString n

/-- Zero-pad to six digits. -/
def pad6 (n : ℕ) : String :=
  if n < 10 then "00000" ++ toString n
  else if n < 100 then "0000" ++ toString n
  else if n < 1000 then "000" ++ toString n
  else if n < 10000 then "00" ++ toString n
  else if n < 100000 then "0" ++ toString n
  else toString n

/-- Python datetime.isoformat(), the form pydantic model_dump(mode=json)
emits for datetime fields: a T separator and fractional seconds exactly
when microseconds are nonzero. -/
def datetime_isoformat (d : DateTime) : String :=
  pad4 d.year ++ "-" ++ pad2 d.month ++ "-" ++ pad2 d.day ++ "T" ++
    pad2 d.hour ++ ":" ++ pad2 d.minute ++ ":" ++ pad2 d.second ++
    (if d.microsecond = 0 then "" else "." ++ pad6 d.microsecond)

/-- The form the spec prescribes for serialized timestamps, which is
also strftime of the pattern the code uses for console display:
YYYY-MM-DD HH:MM:SS with a space separator and no fractional part. -/
def spec_timestamp_form (d : DateTime) : String :=
  pad4 d.year ++ "-" ++ pad2 d.month ++ "-" ++ pad2 d.day ++ " " ++
    pad2 d.hour ++ ":" ++ pad2 d.minute ++ ":" ++ pad2 d.second

/-- The JSON documents TinyDB stores. -/
inductive Json where
  | null
  | num (q : ℚ)
  | str (s : String)
  | bool (b : Bool)
  | arr (xs : List Json)
  | obj (fields : List (String × Json))

/-- money_serializer / PlainSerializer of JsonSafeMoney: a Money object
serializes to its plain numeric amount. -/
def money_serializer (m : Money) : Json := Json.num m

/-- Serialize an optional field (null when absent). -/
def dump_opt {α : Type} (f : α → Json) : Option α → Json
  | none => Json.null
  | some a => f a

/-- model_dump(mode=json) of an ItemKeranjang. -/
def model_dump_item (it : ItemKeranjang) : Json :=
  Json.obj [("produk_id", Json.str it.produk_id),
            ("nama_produk", Json.str it.nama_produk),
            ("harga_satuan", money_serializer it.harga_satuan),
            ("jumlah", Json.num (it.jumlah : ℚ))]

/-- model_dump(mode=json) of a TransaksiBank document. -/
def model_dump_transaksi (t : TransaksiBank DateTime) : Json :=
  Json.obj [("id", Json.str t.id),
            ("user_id_sumber", Json.str t.user_id_sumber),
            ("user_id_tujuan", dump_opt Json.str t.user_id_tujuan),
            ("jenis_transaksi", Json.str t.jenis_transaksi),
            ("jumlah", money_serializer t.jumlah),
            ("keterangan", Json.str t.keterangan),
            ("timestamp", Json.str (datetime_isoformat t.timestamp)),
            ("saldo_akhir_sumber", money_serializer t.saldo_akhir_sumber),
            ("saldo_akhir_tujuan", dump_opt money_serializer t.saldo_akhir_tujuan)]

/-- model_dump(mode=json) of a PesananToko document. -/
def model_dump_pesanan (o : PesananToko DateTime) : Json :=
  Json.obj [("id", Json.str o.id),
            ("user_id", Json.str o.user_id),
            ("items_pesanan", Json.arr (o.items_pesanan.map model_dump_item)),
            ("total_harga", money_serializer o.total_harga),
            ("metode_pembayaran", Json.str o.metode_pembayaran),
            ("status_pesanan", Json.str o.status_pesanan),
            ("timestamp", Json.str (datetime_isoformat o.timestamp))]

/-- model_dump(mode=json) of a Pengguna document. -/
def model_dump_pengguna (p : Pengguna DateTime) : Json :=
  Json.obj [("id", Json.str p.id),
            ("username", Json.str p.username),
            ("password_hash", Json.str p.password_hash),
            ("pin_hash", dump_opt Json.str p.pin_hash),
            ("peran", Json.str p.peran),
            ("nama_lengkap", dump_opt Json.str p.nama_lengkap),
            ("email", dump_opt Json.str p.email),
            ("saldo_bank", money_serializer p.saldo_bank),
            ("riwayat_transaksi_bank_ids", Json.arr (p.riwayat_transaksi_bank_ids.map Json.str)),
            ("riwayat_pesanan_toko_ids", Json.arr (p.riwayat_pesanan_toko_ids.map Json.str)),
            ("gagal_login_count", Json.num (p.gagal_login_count : ℚ)),
            ("akun_terkunci_hingga",
              dump_opt (fun d => Json.str (datetime_isoformat d)) p.akun_terkunci_hingga),
            ("dibuat_pada", Json.str (datetime_isoformat p.dibuat_pada))]

/-- model_dump(mode=json) of a Produk document. -/
def model_dump_produk (pr : Produk DateTime) : Json :=
  Json.obj [("id", Json.str pr.id),
            ("nama", Json.str pr.nama),
            ("harga", money_serializer pr.harga),
            ("stok", Json.num (pr.stok : ℚ)),
            ("kategori", Json.str pr.kategori),
            ("deskripsi", Json.str pr.deskripsi),
            ("dibuat_pada", Json.str (datetime_isoformat pr.dibuat_pada)),
            ("diperbarui_pada", Json.str (datetime_isoformat pr.diperbarui_pada))]

/-- Field access on a serialized document. -/
def lookupField (j : Json) (k : String) : Option Json :=
  match j with
  | Json.obj fields => fields.lookup k
  | _ => none

/-- A concrete customer account used to exercise the theorems. -/
def akunA : Pengguna ℤ :=
  { id := "u1", username := "alice", password_hash := "PwA!2345",
    pin_hash := some "123456", peran := "PELANGGAN", nama_lengkap := some "Alice",
    email := none, saldo_bank := 50000, riwayat_transaksi_bank_ids := [],
    riwayat_pesanan_toko_ids := [], gagal_login_count := 0,
    akun_terkunci_hingga := none, dibuat_pada := 0 }

/-- A second concrete account (transfer destination). -/
def akunB : Pengguna ℤ :=
  { id := "u2", username := "bob", password_hash := "PwB!2345",
    pin_hash := some "654321", peran := "PELANGGAN", nama_lengkap := none,
    email := none, saldo_bank := 10000, riwayat_transaksi_bank_ids := [],
    riwayat_pesanan_toko_ids := [], gagal_login_count := 0,
    akun_terkunci_hingga := none, dibuat_pada := 0 }

/-- A concrete account that has already failed to log in twice. -/
def akunC : Pengguna ℤ :=
  { id := "u3", username := "carol", password_hash := "PwC!2345",
    pin_hash := none, peran := "PELANGGAN", nama_lengkap := none,
    email := none, saldo_bank := 0, riwayat_transaksi_bank_ids := [],
    riwayat_pesanan_toko_ids := [], gagal_login_count := 2,
    akun_terkunci_hingga := none, dibuat_pada := 0 }

/-- A concrete catalog product. -/
def produkS : Produk ℤ :=
  { id := "p1", nama := "Susu UHT Full Cream 1L", harga := 18500, stok := 5,
    kategori := "Minuman", deskripsi := "Susu UHT segar berkualitas.",
    dibuat_pada := 0, diperbarui_pada := 0 }

/-- The same product after an admin price edit. -/
def produkS2 : Produk ℤ := { produkS with harga := 20000 }

/-- A concrete persisted state holding the three accounts and the product. -/
def contohState : BankState :=
  { pengguna := [akunA, akunB, akunC], produk := [produkS],
    transaksi_bank := [], pesanan_toko := [] }

/-- A concrete cart line for produkS. -/
def itemS : ItemKeranjang :=
  { produk_id := "p1", nama_produk := "Susu UHT Full Cream 1L",
    harga_satuan := 18500, jumlah := 2 }

/-- A PIN-entry stream that always types akunA's correct PIN. -/
def pinsBenarA : ℕ → String := fun _ => "123456"

/-- A PIN-entry stream that always types a wrong PIN. -/
def pinsSalah : ℕ → String := fun _ => "000000"

/-- A concrete sequence of ledger operations. -/
def opsContoh : List Op :=
  [Op.deposit "u1" 1000 "t1" 0,
   Op.withdraw "u1" 500 pinsBenarA "t2" 1,
   Op.transfer "u1" "Bob" 200 pinsBenarA "t3" 2,
   Op.checkout "u1" [itemS] true pinsBenarA "t4" "o1" 3]

/-- A concrete timestamp, 2024-01-02 03:04:05. -/
def dtContoh : DateTime :=
  { year := 2024, month := 1, day := 2, hour := 3, minute := 4, second := 5,
    microsecond := 0 }

/-- A concrete transaction document carrying dtContoh. -/
def transaksiContoh : TransaksiBank DateTime :=
  { id := "t9", user_id_sumber := "u1", user_id_tujuan := none,
    jenis_transaksi := "Deposit", jumlah := 100000, keterangan := "Setoran ke akun",
    timestamp := dtContoh, saldo_akhir_sumber := 100000, saldo_akhir_tujuan := none }

/-! Helper lemmas about the TinyDB access layer. -/

theorem find?_map_replace_self {α : Type} (key : α → String) (doc : α) :
    ∀ (tbl : List α), tbl.any (fun d => key d == key doc) = true →
      (tbl.map (fun d => if key d == key doc then doc else d)).find?
        (fun d => key d == key doc) = some doc := by
  intro tbl
  induction tbl with
  | nil => intro h; simp at h
  | cons a l ih =>
      intro h
      by_cases ha : (key a == key doc) = true
      · simp only [List.map_cons, if_pos ha]
        exact List.find?_cons_of_pos _ (by simp)
      · simp only [List.map_cons, if_neg ha]
        rw [List.find?_cons_of_neg _ (by simpa using ha)]
        apply ih
        simp only [List.any_cons, ha, Bool.false_or] at h
        exact h

theorem find?_map_replace_other {α : Type} (key : α → String) (doc : α) (k : String)
    (hk : key doc ≠ k) :
    ∀ (tbl : List α),
      (tbl.map (fun d => if key d == key doc then doc else d)).find?
        (fun d => key d == k) = tbl.find? (fun d => key d == k) := by
  intro tbl
  induction tbl with
  | nil => rfl
  | cons a l ih =>
      by_cases ha : (key a == key doc) = true
      · have hak : key a = key doc := by simpa [beq_iff_eq] using ha
        simp only [List.map_cons, if_pos ha]
        rw [List.find?_cons_of_neg _ (by simp [beq_iff_eq, hk]),
            List.find?_cons_of_neg _ (by simp [beq_iff_eq, hak, hk]), ih]
      · simp only [List.map_cons, if_neg ha]
        by_cases hp : (key a == k) = true
        · rw [@List.find?_cons_of_pos _ (fun d => key d == k) a _ hp,
              @List.find?_cons_of_pos _ (fun d => key d == k) a _ hp]
        · rw [@List.find?_cons_of_neg _ (fun d => key d == k) a _ hp,
              @List.find?_cons_of_neg _ (fun d => key d == k) a _ hp, ih]

theorem tinydb_upsert_find?_self {α : Type} (key : α → String) (tbl : List α) (doc : α) :
    (tinydb_upsert tbl (fun d => key d == key doc) doc).find?
      (fun d => key d == key doc) = some doc := by
  unfold tinydb_upsert
  by_cases hany : tbl.any (fun d => key d == key doc) = true
  · rw [if_pos hany]; exact find?_map_replace_self key doc tbl hany
  · rw [if_neg hany, List.find?_append]
    have hnone : tbl.find? (fun d => key d == key doc) = none := by
      rw [List.find?_eq_none]
      intro x hx hpx
      exact hany (List.any_eq_true.mpr ⟨x, hx, hpx⟩)
    rw [hnone]
    simp

theorem tinydb_upsert_find?_other {α : Type} (key : α → String) (tbl : List α) (doc : α)
    (k : String) (hk : key doc ≠ k) :
    (tinydb_upsert tbl (fun d => key d == key doc) doc).find? (fun d => key d == k) =
      tbl.find? (fun d => key d == k) := by
  unfold tinydb_upsert
  by_cases hany : tbl.any (fun d => key d == key doc) = true
  · rw [if_pos hany]; exact find?_map_replace_other key doc k hk tbl
  · rw [if_neg hany, List.find?_append]
    have : List.find? (fun d => key d == k) [doc] = none := by
      simp [beq_iff_eq, hk]
    rw [this]
    cases tbl.find? (fun d => key d == k) <;> rfl

theorem mem_tinydb_upsert {α : Type} {tbl : List α} {cond : α → Bool} {doc x : α}
    (hx : x ∈ tinydb_upsert tbl cond doc) : x = doc ∨ x ∈ tbl := by
  unfold tinydb_upsert at hx
  by_cases hany : tbl.any cond = true
  · rw [if_pos hany] at hx
    rcases List.mem_map.mp hx with ⟨y, hy, hxy⟩
    by_cases hc : cond y = true
    · left; rw [if_pos hc] at hxy; exact hxy.symm
    · right; rw [if_neg hc] at hxy; exact hxy ▸ hy
  · rw [if_neg hany] at hx
    rcases List.mem_append.mp hx with h | h
    · right; exact h
    · left; simpa using h

theorem nodup_key_mem_inj {α : Type} {key : α → String} {l : List α}
    (hnd : (l.map key).Nodup) {a b : α} (ha : a ∈ l) (hb : b ∈ l) (hk : key a = key b) :
    a = b :=
  List.inj_on_of_nodup_map hnd ha hb hk

@[simp]
theorem simpan_pengguna_produk (st : BankState) (p : Pengguna ℤ) :
    (simpan_pengguna st p).produk = st.produk := rfl

@[simp]
theorem simpan_pengguna_transaksi (st : BankState) (p : Pengguna ℤ) :
    (simpan_pengguna st p).transaksi_bank = st.transaksi_bank := rfl

@[simp]
theorem simpan_pengguna_pesanan (st : BankState) (p : Pengguna ℤ) :
    (simpan_pengguna st p).pesanan_toko = st.pesanan_toko := rfl

@[simp]
theorem simpan_transaksi_bank_pengguna (st : BankState) (t : TransaksiBank ℤ) :
    (simpan_transaksi_bank st t).pengguna = st.pengguna := rfl

@[simp]
theorem simpan_transaksi_bank_produk (st : BankState) (t : TransaksiBank ℤ) :
    (simpan_transaksi_bank st t).produk = st.produk := rfl

@[simp]
theorem simpan_transaksi_bank_pesanan (st : BankState) (t : TransaksiBank ℤ) :
    (simpan_transaksi_bank st t).pesanan_toko = st.pesanan_toko := rfl

@[simp]
theorem simpan_pesanan_toko_pengguna (st : BankState) (o : PesananToko ℤ) :
    (simpan_pesanan_toko st o).pengguna = st.pengguna := rfl

@[simp]
theorem simpan_pesanan_toko_produk (st : BankState) (o : PesananToko ℤ) :
    (simpan_pesanan_toko st o).produk = st.produk := rfl

@[simp]
theorem simpan_pesanan_toko_transaksi (st : BankState) (o : PesananToko ℤ) :
    (simpan_pesanan_toko st o).transaksi_bank = st.transaksi_bank := rfl

@[simp]
theorem simpan_produk_pengguna (st : BankState) (p : Produk ℤ) (now : ℤ) :
    (simpan_produk st p now).pengguna = st.pengguna := rfl

@[simp]
theorem simpan_produk_transaksi (st : BankState) (p : Produk ℤ) (now : ℤ) :
    (simpan_produk st p now).transaksi_bank = st.transaksi_bank := rfl

@[simp]
theorem simpan_produk_pesanan (st : BankState) (p : Produk ℤ) (now : ℤ) :
    (simpan_produk st p now).pesanan_toko = st.pesanan_toko := rfl

theorem dapatkan_pengguna_by_id_simpan_self (st : BankState) (p : Pengguna ℤ) :
    dapatkan_pengguna_by_id (simpan_pengguna st p) p.id = some p :=
  tinydb_upsert_find?_self Pengguna.id st.pengguna p

theorem dapatkan_pengguna_by_id_simpan_other (st : BankState) (p : Pengguna ℤ)
    (uid : String) (h : p.id ≠ uid) :
    dapatkan_pengguna_by_id (simpan_pengguna st p) uid = dapatkan_pengguna_by_id st uid :=
  tinydb_upsert_find?_other Pengguna.id st.pengguna p uid h

theorem dapatkan_produk_by_id_simpan_self (st : BankState) (p : Produk ℤ) (now : ℤ) :
    dapatkan_produk_by_id (simpan_produk st p now) p.id = some { p with diperbarui_pada := now } :=
  tinydb_upsert_find?_self Produk.id st.produk { p with diperbarui_pada := now }

theorem dapatkan_produk_by_id_simpan_other (st : BankState) (p : Produk ℤ) (now : ℤ)
    (pid : String) (h : p.id ≠ pid) :
    dapatkan_produk_by_id (simpan_produk st p now) pid = dapatkan_produk_by_id st pid :=
  tinydb_upsert_find?_other Produk.id st.produk { p with diperbarui_pada := now } pid h

/-! Rejected operations leave the persisted state untouched. -/

theorem deposit_bank_fail (st : BankState) (uid : String) (j : Money) (txid : String)
    (now : ℤ) (h : (deposit_bank st uid j txid now).2 = false) :
    (deposit_bank st uid j txid now).1 = st := by
  unfold deposit_bank at h ⊢
  cases hm : dapatkan_pengguna_by_id st uid with
  | none => simp
  | some u =>
      simp only [hm] at h ⊢
      split_ifs at h ⊢ with h1
      · rfl

theorem withdraw_bank_fail (st : BankState) (uid : String) (j : Money) (pins : ℕ → String)
    (txid : String) (now : ℤ) (h : (withdraw_bank st uid j pins txid now).2 = false) :
    (withdraw_bank st uid j pins txid now).1 = st := by
  unfold withdraw_bank at h ⊢
  cases hm : dapatkan_pengguna_by_id st uid with
  | none => simp
  | some u =>
      simp only [hm] at h ⊢
      split_ifs at h ⊢ <;> rfl

theorem transfer_dana_bank_fail (st : BankState) (uid tujuan : String) (j : Money)
    (pins : ℕ → String) (txid : String) (now : ℤ)
    (h : (transfer_dana_bank st uid tujuan j pins txid now).2 = false) :
    (transfer_dana_bank st uid tujuan j pins txid now).1 = st := by
  unfold transfer_dana_bank at h ⊢
  cases hm : dapatkan_pengguna_by_id st uid with
  | none => simp
  | some u =>
      simp only [hm] at h ⊢
      by_cases hself : (str_lower tujuan == str_lower u.username) = true
      · simp [hself]
      · simp only [hself, if_neg, Bool.false_eq_true, if_false] at h ⊢
        cases hd : dapatkan_pengguna_by_username st tujuan with
        | none => simp
        | some d =>
            simp only [hd] at h ⊢
            split_ifs at h ⊢ <;> rfl

theorem proses_pembayaran_toko_fail (st : BankState) (uid : String)
    (items : List ItemKeranjang) (konfirmasi : Bool) (pins : ℕ → String)
    (txid oid : String) (now : ℤ)
    (h : (proses_pembayaran_toko st uid items konfirmasi pins txid oid now).2.2 = false) :
    (proses_pembayaran_toko st uid items konfirmasi pins txid oid now).1 = st ∧
      (proses_pembayaran_toko st uid items konfirmasi pins txid oid now).2.1 = items := by
  unfold proses_pembayaran_toko at h ⊢
  cases hm : dapatkan_pengguna_by_id st uid with
  | none => simp
  | some u =>
      simp only [hm] at h ⊢
      split_ifs at h ⊢ <;> exact ⟨rfl, rfl⟩

/-! Successful operations, written out as the exact state they produce. -/

theorem deposit_bank_eq (st : BankState) (uid : String) (j : Money) (txid : String)
    (now : ℤ) (u : Pengguna ℤ) (hu : dapatkan_pengguna_by_id st uid = some u)
    (hj : 0 < j) :
    deposit_bank st uid j txid now =
      (simpan_pengguna (simpan_transaksi_bank st
          { id := txid, user_id_sumber := u.id, user_id_tujuan := none,
            jenis_transaksi := "Deposit", jumlah := j, keterangan := "Setoran ke akun",
            timestamp := now, saldo_akhir_sumber := u.saldo_bank + j,
            saldo_akhir_tujuan := none })
        { u with saldo_bank := u.saldo_bank + j,
                 riwayat_transaksi_bank_ids := u.riwayat_transaksi_bank_ids ++ [txid] },
       true) := by
  unfold deposit_bank
  rw [hu]
  simp only [not_le.mpr hj, if_false]

theorem withdraw_bank_eq (st : BankState) (uid : String) (j : Money) (pins : ℕ → String)
    (txid : String) (now : ℤ) (u : Pengguna ℤ)
    (hu : dapatkan_pengguna_by_id st uid = some u) (hj : 0 < j)
    (hbal : j ≤ u.saldo_bank) (hpin : minta_pin_transaksi u pins = true) :
    withdraw_bank st uid j pins txid now =
      (simpan_pengguna (simpan_transaksi_bank st
          { id := txid, user_id_sumber := u.id, user_id_tujuan := none,
            jenis_transaksi := "Withdraw", jumlah := j, keterangan := "Penarikan dari akun",
            timestamp := now, saldo_akhir_sumber := u.saldo_bank - j,
            saldo_akhir_tujuan := none })
        { u with saldo_bank := u.saldo_bank - j,
                 riwayat_transaksi_bank_ids := u.riwayat_transaksi_bank_ids ++ [txid] },
       true) := by
  unfold withdraw_bank
  rw [hu]
  simp only [not_le.mpr hj, if_false, not_lt.mpr hbal, hpin, if_true]

theorem transfer_dana_bank_eq (st : BankState) (uid tujuan_nama : String) (j : Money)
    (pins : ℕ → String) (txid : String) (now : ℤ) (sumber tujuan : Pengguna ℤ)
    (hs : dapatkan_pengguna_by_id st uid = some sumber)
    (hneq : str_lower tujuan_nama ≠ str_lower sumber.username)
    (ht : dapatkan_pengguna_by_username st tujuan_nama = some tujuan)
    (hj : 0 < j) (hbal : j ≤ sumber.saldo_bank)
    (hpin : minta_pin_transaksi sumber pins = true) :
    transfer_dana_bank st uid tujuan_nama j pins txid now =
      (simpan_pengguna (simpan_pengguna (simpan_transaksi_bank st
          { id := txid, user_id_sumber := sumber.id, user_id_tujuan := some tujuan.id,
            jenis_transaksi := "Transfer", jumlah := j,
            keterangan := "Transfer ke " ++ tujuan.username, timestamp := now,
            saldo_akhir_sumber := sumber.saldo_bank - j,
            saldo_akhir_tujuan := some (tujuan.saldo_bank + j) })
          { sumber with saldo_bank := sumber.saldo_bank - j,
                        riwayat_transaksi_bank_ids := sumber.riwayat_transaksi_bank_ids ++ [txid] })
        { tujuan with saldo_bank := tujuan.saldo_bank + j,
                      riwayat_transaksi_bank_ids := tujuan.riwayat_transaksi_bank_ids ++ [txid] },
       true) := by
  have hne : (str_lower tujuan_nama == str_lower sumber.username) = false := by
    simpa [beq_iff_eq] using hneq
  unfold transfer_dana_bank
  simp only [hs, hne, Bool.false_eq_true, if_false, ht, not_le.mpr hj,
    not_lt.mpr hbal, hpin, if_true]

/-! The login state machine, transition by transition. -/

theorem login_pengguna_terkunci (st : BankState) (username pw : String) (now : ℤ)
    (u : Pengguna ℤ) (hu : dapatkan_pengguna_by_username st username = some u)
    (hl : lock_aktif u now = true) :
    login_pengguna st username pw now = (st, false) := by
  unfold login_pengguna
  simp only [hu, hl, if_true]

theorem login_pengguna_benar (st : BankState) (username pw : String) (now : ℤ)
    (u : Pengguna ℤ) (hu : dapatkan_pengguna_by_username st username = some u)
    (hl : lock_aktif u now = false) (hp : verifikasi_password u pw = true) :
    login_pengguna st username pw now =
      (simpan_pengguna st { u with gagal_login_count := 0, akun_terkunci_hingga := none },
       true) := by
  unfold login_pengguna
  simp only [hu, hl, hp, Bool.false_eq_true, if_false, if_true]

theorem login_pengguna_salah_bawah (st : BankState) (username pw : String) (now : ℤ)
    (u : Pengguna ℤ) (hu : dapatkan_pengguna_by_username st username = some u)
    (hl : lock_aktif u now = false) (hp : verifikasi_password u pw = false)
    (hc : u.gagal_login_count + 1 < BATAS_PERCOBAAN_LOGIN) :
    login_pengguna st username pw now =
      (simpan_pengguna st { u with gagal_login_count := u.gagal_login_count + 1 },
       false) := by
  unfold login_pengguna
  simp only [hu, hl, hp, Bool.false_eq_true, if_false, not_le.mpr hc]

theorem login_pengguna_salah_kunci (st : BankState) (username pw : String) (now : ℤ)
    (u : Pengguna ℤ) (hu : dapatkan_pengguna_by_username st username = some u)
    (hl : lock_aktif u now = false) (hp : verifikasi_password u pw = false)
    (hc : BATAS_PERCOBAAN_LOGIN ≤ u.gagal_login_count + 1) :
    login_pengguna st username pw now =
      (simpan_pengguna st
        { u with gagal_login_count := u.gagal_login_count + 1,
                 akun_terkunci_hingga := some (now + DURASI_KUNCI_AKUN_DETIK) },
       false) := by
  unfold login_pengguna
  simp only [hu, hl, hp, Bool.false_eq_true, if_false, hc, if_true]

/-! The stock re-validation, decrement and save pipeline of checkout. -/

theorem foldl_simpan_produk_pengguna (now : ℤ) :
    ∀ (us : List (Produk ℤ)) (st : BankState),
      (us.foldl (fun s pr => simpan_produk s pr now) st).pengguna = st.pengguna := by
  intro us
  induction us with
  | nil => intro st; rfl
  | cons u rest ih => intro st; rw [List.foldl_cons, ih]; rfl

theorem foldl_simpan_produk_transaksi (now : ℤ) :
    ∀ (us : List (Produk ℤ)) (st : BankState),
      (us.foldl (fun s pr => simpan_produk s pr now) st).transaksi_bank = st.transaksi_bank := by
  intro us
  induction us with
  | nil => intro st; rfl
  | cons u rest ih => intro st; rw [List.foldl_cons, ih]; rfl

theorem foldl_simpan_produk_pesanan (now : ℤ) :
    ∀ (us : List (Produk ℤ)) (st : BankState),
      (us.foldl (fun s pr => simpan_produk s pr now) st).pesanan_toko = st.pesanan_toko := by
  intro us
  induction us with
  | nil => intro st; rfl
  | cons u rest ih => intro st; rw [List.foldl_cons, ih]; rfl

theorem foldl_simpan_produk_find?_other (now : ℤ) (k : String) :
    ∀ (us : List (Produk ℤ)) (st : BankState), (∀ q ∈ us, q.id ≠ k) →
      dapatkan_produk_by_id (us.foldl (fun s pr => simpan_produk s pr now) st) k =
        dapatkan_produk_by_id st k := by
  intro us
  induction us with
  | nil => intro st _; rfl
  | cons u rest ih =>
      intro st h
      rw [List.foldl_cons, ih _ (fun q hq => h q (List.mem_cons_of_mem u hq)),
          dapatkan_produk_by_id_simpan_other _ _ _ _ (h u (List.mem_cons_self u rest))]

theorem foldl_simpan_produk_find?_self (now : ℤ) :
    ∀ (us : List (Produk ℤ)) (st : BankState), (us.map Produk.id).Nodup →
      ∀ q ∈ us,
        dapatkan_produk_by_id (us.foldl (fun s pr => simpan_produk s pr now) st) q.id =
          some { q with diperbarui_pada := now } := by
  intro us
  induction us with
  | nil => intro st _ q hq; exact absurd hq (List.not_mem_nil q)
  | cons u rest ih =>
      intro st hnd q hq
      rw [List.map_cons, List.nodup_cons] at hnd
      rcases List.mem_cons.mp hq with rfl | hq'
      · rw [List.foldl_cons,
            foldl_simpan_produk_find?_other now q.id rest _
              (fun r hr hrq => hnd.1 (hrq ▸ List.mem_map_of_mem Produk.id hr)),
            dapatkan_produk_by_id_simpan_self]
      · exact ih _ hnd.2 q hq'

theorem stok_semua_cukup_forall₂ (st : BankState) :
    ∀ (items : List ItemKeranjang), stok_semua_cukup st items = true →
      List.Forall₂ (fun it pr =>
          dapatkan_produk_by_id st it.produk_id = some pr ∧
          pr.id = it.produk_id ∧ it.jumlah ≤ pr.stok)
        items (produk_yang_diubah st items) := by
  intro items
  induction items with
  | nil => intro _; exact List.Forall₂.nil
  | cons it rest ih =>
      intro h
      rw [stok_semua_cukup, List.all_cons, Bool.and_eq_true] at h
      rcases h with ⟨h1, h2⟩
      cases hm : dapatkan_produk_by_id st it.produk_id with
      | none => rw [hm] at h1; exact absurd h1 (by simp)
      | some pr =>
          rw [hm] at h1
          have hle : it.jumlah ≤ pr.stok := by simpa using h1
          have hid : pr.id = it.produk_id := by
            have := List.find?_some hm
            simpa [beq_iff_eq] using this
          have htl : produk_yang_diubah st (it :: rest) = pr :: produk_yang_diubah st rest := by
            rw [produk_yang_diubah, List.filterMap_cons, hm]
            rfl
          rw [htl]
          exact List.Forall₂.cons ⟨hm, hid, hle⟩ (ih h2)

theorem kurangi_stok_semua_cons_skip (now : ℤ) (d : Produk ℤ) :
    ∀ (items : List ItemKeranjang) (ps : List (Produk ℤ)),
      (∀ it ∈ items, it.produk_id ≠ d.id) →
      kurangi_stok_semua items (d :: ps) now = d :: kurangi_stok_semua items ps now := by
  intro items
  induction items with
  | nil => intro ps _; rfl
  | cons it rest ih =>
      intro ps h
      have hne : (d.id == it.produk_id) = false := by
        simp [beq_iff_eq]
        exact fun he => h it (List.mem_cons_self it rest) he.symm
      rw [kurangi_stok_semua, List.foldl_cons]
      have hstep : kurangi_stok_pertama (d :: ps) it.produk_id it.jumlah now =
          d :: kurangi_stok_pertama ps it.produk_id it.jumlah now := by
        rw [kurangi_stok_pertama, hne]
        simp
      rw [hstep]
      exact ih _ (fun q hq => h q (List.mem_cons_of_mem it hq))

theorem kurangi_stok_semua_zip (now : ℤ) :
    ∀ (items : List ItemKeranjang) (ps : List (Produk ℤ)),
      (items.map (fun it => it.produk_id)).Nodup →
      List.Forall₂ (fun it pr => pr.id = it.produk_id) items ps →
      kurangi_stok_semua items ps now =
        List.zipWith
          (fun it pr => { pr with stok := pr.stok - it.jumlah, diperbarui_pada := now })
          items ps := by
  intro items
  induction items with
  | nil =>
      intro ps _ hal
      cases hal
      rfl
  | cons it rest ih =>
      intro ps hnd hal
      rcases List.forall₂_cons_left_iff.mp hal with ⟨b, l₂, hb, h2, rfl⟩
      rw [List.map_cons, List.nodup_cons] at hnd
      rw [kurangi_stok_semua, List.foldl_cons]
      have hstep : kurangi_stok_pertama (b :: l₂) it.produk_id it.jumlah now =
          { b with stok := b.stok - it.jumlah, diperbarui_pada := now } :: l₂ := by
        rw [kurangi_stok_pertama, if_pos (by simp [beq_iff_eq, hb])]
      rw [hstep]
      show kurangi_stok_semua rest
          ({ b with stok := b.stok - it.jumlah, diperbarui_pada := now } :: l₂) now = _
      rw [kurangi_stok_semua_cons_skip now _ rest l₂ (fun q hq hqe => hnd.1 (by
        have hq2 : q.produk_id = it.produk_id := by rw [hqe]; exact hb
        exact hq2 ▸ List.mem_map_of_mem (fun x => x.produk_id) hq))]
      rw [List.zipWith_cons_cons]
      exact congrArg _ (ih l₂ hnd.2 h2)

theorem forall₂_zipWith_mem {α β γ : Type} {R : α → β → Prop} (f : α → β → γ) :
    ∀ {l₁ : List α} {l₂ : List β}, List.Forall₂ R l₁ l₂ →
      List.Forall₂ (fun a b => R a b ∧ f a b ∈ List.zipWith f l₁ l₂) l₁ l₂ := by
  intro l₁ l₂ h
  induction h with
  | nil => exact List.Forall₂.nil
  | cons h1 h2 ih =>
      rw [List.zipWith_cons_cons]
      exact List.Forall₂.cons ⟨h1, List.mem_cons_self _ _⟩
        (ih.imp (fun a b hab => ⟨hab.1, List.mem_cons_of_mem _ hab.2⟩))

theorem forall_mem_zipWith {α β γ : Type} {R : α → β → Prop} {P : γ → Prop}
    (f : α → β → γ) :
    ∀ {l₁ : List α} {l₂ : List β}, List.Forall₂ R l₁ l₂ →
      (∀ a b, R a b → P (f a b)) → ∀ q ∈ List.zipWith f l₁ l₂, P q := by
  intro l₁ l₂ h hP
  induction h with
  | nil => intro q hq; exact absurd hq (List.not_mem_nil q)
  | cons h1 h2 ih =>
      rw [List.zipWith_cons_cons]
      intro q hq
      rcases List.mem_cons.mp hq with rfl | hq'
      · exact hP _ _ h1
      · exact ih q hq'

theorem map_id_zipWith_kurangi (now : ℤ) :
    ∀ {items : List ItemKeranjang} {ps : List (Produk ℤ)},
      List.Forall₂ (fun it pr => pr.id = it.produk_id) items ps →
      (List.zipWith
          (fun it pr => { pr with stok := pr.stok - it.jumlah, diperbarui_pada := now })
          items ps).map Produk.id =
        items.map (fun it => it.produk_id) := by
  intro items ps h
  induction h with
  | nil => rfl
  | cons h1 h2 ih =>
      rw [List.zipWith_cons_cons, List.map_cons, List.map_cons, ih]
      exact congrArg (· :: _) h1

theorem mem_foldl_simpan_produk (now : ℤ) :
    ∀ (us : List (Produk ℤ)) (st : BankState) (x : Produk ℤ),
      x ∈ (us.foldl (fun s pr => simpan_produk s pr now) st).produk →
      x ∈ st.produk ∨ ∃ q ∈ us, x = { q with diperbarui_pada := now } := by
  intro us
  induction us with
  | nil => intro st x hx; exact Or.inl hx
  | cons u rest ih =>
      intro st x hx
      rw [List.foldl_cons] at hx
      rcases ih _ x hx with hx' | ⟨q, hq, hxq⟩
      · rcases mem_tinydb_upsert hx' with hxu | hxs
        · exact Or.inr ⟨u, List.mem_cons_self u rest, hxu⟩
        · exact Or.inl hxs
      · exact Or.inr ⟨q, List.mem_cons_of_mem u hq, hxq⟩

theorem mem_simpan_pengguna (st : BankState) (p : Pengguna ℤ) (x : Pengguna ℤ)
    (hx : x ∈ (simpan_pengguna st p).pengguna) : x = p ∨ x ∈ st.pengguna :=
  mem_tinydb_upsert hx

theorem proses_pembayaran_toko_sukses (st : BankState) (uid : String)
    (items : List ItemKeranjang) (konfirmasi : Bool) (pins : ℕ → String)
    (txid oid : String) (now : ℤ)
    (h : (proses_pembayaran_toko st uid items konfirmasi pins txid oid now).2.2 = true) :
    ∃ u, dapatkan_pengguna_by_id st uid = some u ∧ items.isEmpty = false ∧
      ¬ u.saldo_bank < total_belanja items ∧ konfirmasi = true ∧
      minta_pin_transaksi u pins = true ∧ stok_semua_cukup st items = true := by
  unfold proses_pembayaran_toko at h
  cases hm : dapatkan_pengguna_by_id st uid with
  | none => rw [hm] at h; exact absurd h (by simp)
  | some u =>
      simp only [hm] at h
      refine ⟨u, rfl, ?_⟩
      split_ifs at h with h1 h2 h3 h4 h5
      exact ⟨by simpa using h1, h2, by simpa using h3, by simpa using h4, h5⟩

theorem proses_pembayaran_toko_eq (st : BankState) (uid : String)
    (items : List ItemKeranjang) (konfirmasi : Bool) (pins : ℕ → String)
    (txid oid : String) (now : ℤ) (u : Pengguna ℤ)
    (hu : dapatkan_pengguna_by_id st uid = some u) (hne : items.isEmpty = false)
    (hbal : ¬ u.saldo_bank < total_belanja items) (hk : konfirmasi = true)
    (hpin : minta_pin_transaksi u pins = true)
    (hstok : stok_semua_cukup st items = true) :
    proses_pembayaran_toko st uid items konfirmasi pins txid oid now =
      ((kurangi_stok_semua items (produk_yang_diubah st items) now).foldl
         (fun s pr => simpan_produk s pr now)
         (simpan_pengguna (simpan_pesanan_toko (simpan_transaksi_bank st
             { id := txid, user_id_sumber := u.id, user_id_tujuan := none,
               jenis_transaksi := "Pembayaran Toko", jumlah := total_belanja items,
               keterangan := "Pembelian di Bear Mart", timestamp := now,
               saldo_akhir_sumber := u.saldo_bank - total_belanja items,
               saldo_akhir_tujuan := none })
             { id := oid, user_id := u.id, items_pesanan := items,
               total_harga := total_belanja items, metode_pembayaran := "Bank Bear Mart",
               status_pesanan := "Selesai", timestamp := now })
           { u with saldo_bank := u.saldo_bank - total_belanja items,
                    riwayat_transaksi_bank_ids := u.riwayat_transaksi_bank_ids ++ [txid],
                    riwayat_pesanan_toko_ids := u.riwayat_pesanan_toko_ids ++ [oid] }),
       [], true) := by
  subst hk
  unfold proses_pembayaran_toko
  simp only [hu, hne, Bool.false_eq_true, if_false, if_neg hbal, Bool.not_true,
    hpin, hstok, if_true]

/-! Additional cart lemmas. -/

theorem find?_tambah_jumlah_pertama (pid : String) (j : ℤ) :
    ∀ (items : List ItemKeranjang) (it : ItemKeranjang),
      items.find? (fun x => x.produk_id == pid) = some it →
      (tambah_jumlah_pertama items pid j).find? (fun x => x.produk_id == pid) =
        some { it with jumlah := it.jumlah + j } := by
  intro items
  induction items with
  | nil => intro it h; simp at h
  | cons a rest ih =>
      intro it h
      by_cases pa : (a.produk_id == pid) = true
      · rw [@List.find?_cons_of_pos _ (fun x => x.produk_id == pid) a _ pa,
            Option.some.injEq] at h
        subst h
        rw [tambah_jumlah_pertama, if_pos pa]
        exact @List.find?_cons_of_pos ItemKeranjang (fun x => x.produk_id == pid) _ _ pa
      · rw [@List.find?_cons_of_neg _ (fun x => x.produk_id == pid) a _ pa] at h
        rw [tambah_jumlah_pertama, if_neg pa]
        rw [@List.find?_cons_of_neg _ (fun x => x.produk_id == pid) a _ pa]
        exact ih it h

theorem length_tambah_jumlah_pertama (pid : String) (j : ℤ) :
    ∀ (items : List ItemKeranjang),
      (tambah_jumlah_pertama items pid j).length = items.length := by
  intro items
  induction items with
  | nil => rfl
  | cons a rest ih =>
      rw [tambah_jumlah_pertama]
      by_cases pa : (a.produk_id == pid) = true
      · rw [if_pos pa]; rfl
      · rw [if_neg pa]; simpa using ih

/-- C6: a deposit of a non-positive amount is rejected with no mutation;
a positive deposit credits the balance by exactly the amount, creates
exactly one Deposit TransactionRecord whose amount is the deposit and
whose resulting-source-balance is the new balance, appends its id to the
account history, and persists; success never consults a PIN — it depends
only on the account existing and the amount being positive. -/
theorem claim_C6 (st : BankState) (uid : String) (jumlah : Money) (txid : String)
    (now : ℤ) :
    (jumlah ≤ 0 → deposit_bank st uid jumlah txid now = (st, false)) ∧
    (∀ u, dapatkan_pengguna_by_id st uid = some u → 0 < jumlah →
      (deposit_bank st uid jumlah txid now).1.transaksi_bank =
        st.transaksi_bank ++
          [{ id := txid, user_id_sumber := u.id, user_id_tujuan := none,
             jenis_transaksi := "Deposit", jumlah := jumlah,
             keterangan := "Setoran ke akun", timestamp := now,
             saldo_akhir_sumber := u.saldo_bank + jumlah, saldo_akhir_tujuan := none }] ∧
      dapatkan_pengguna_by_id (deposit_bank st uid jumlah txid now).1 uid =
        some { u with saldo_bank := u.saldo_bank + jumlah,
                      riwayat_transaksi_bank_ids := u.riwayat_transaksi_bank_ids ++ [txid] } ∧
      (deposit_bank st uid jumlah txid now).2 = true) ∧
    ((deposit_bank st uid jumlah txid now).2 = true ↔
      0 < jumlah ∧ ∃ u, dapatkan_pengguna_by_id st uid = some u) := by
  refine ⟨?_, ?_, ?_⟩
  · intro hj
    unfold deposit_bank
    cases hm : dapatkan_pengguna_by_id st uid with
    | none => rfl
    | some u => simp [hj]
  · intro u hu hj
    rw [deposit_bank_eq st uid jumlah txid now u hu hj]
    have hid : u.id = uid := by
      have := List.find?_some hu
      simpa [beq_iff_eq] using this
    refine ⟨by simp [simpan_transaksi_bank], ?_, rfl⟩
    rw [← hid]
    exact dapatkan_pengguna_by_id_simpan_self _ _
  · constructor
    · intro h
      unfold deposit_bank at h
      cases hm : dapatkan_pengguna_by_id st uid with
      | none => rw [hm] at h; exact absurd h (by simp)
      | some u =>
          rw [hm] at h
          split_ifs at h with h1
          exact ⟨lt_of_not_le h1, u, rfl⟩
    · rintro ⟨hj, u, hu⟩
      rw [deposit_bank_eq st uid jumlah txid now u hu hj]

/-- C3: a withdraw, transfer or checkout whose success flag is false
leaves the entire persisted state (accounts, products, histories,
transaction and order collections) and the cart exactly as they were;
and a withdraw whose amount exceeds the balance is rejected identically
for every possible PIN-entry stream, i.e. before the PIN is prompted. -/
theorem claim_C3 (st : BankState) (uid : String) (j : Money) (pins : ℕ → String)
    (txid : String) (now : ℤ) :
    ((withdraw_bank st uid j pins txid now).2 = false →
      (withdraw_bank st uid j pins txid now).1 = st) ∧
    (∀ tujuan, (transfer_dana_bank st uid tujuan j pins txid now).2 = false →
      (transfer_dana_bank st uid tujuan j pins txid now).1 = st) ∧
    (∀ items konfirmasi oid,
      (proses_pembayaran_toko st uid items konfirmasi pins txid oid now).2.2 = false →
      (proses_pembayaran_toko st uid items konfirmasi pins txid oid now).1 = st ∧
      (proses_pembayaran_toko st uid items konfirmasi pins txid oid now).2.1 = items) ∧
    (∀ u, dapatkan_pengguna_by_id st uid = some u → u.saldo_bank < j →
      ∀ pins', withdraw_bank st uid j pins' txid now = (st, false)) := by
  refine ⟨withdraw_bank_fail st uid j pins txid now,
          fun tujuan => transfer_dana_bank_fail st uid tujuan j pins txid now,
          fun items konfirmasi oid =>
            proses_pembayaran_toko_fail st uid items konfirmasi pins txid oid now,
          ?_⟩
  intro u hu hlt pins'
  unfold withdraw_bank
  by_cases hj : j ≤ 0
  · simp [hu, hj]
  · simp [hu, hj, hlt]

/-- C4: with the account's stored record in hand — a login while the
lock is active changes nothing and fails; a correct password resets the
failed counter to 0, clears the lock and persists that record; a wrong
password below the threshold persists only the incremented counter; the
wrong password that reaches the threshold of 3 persists the incremented
counter together with a lock expiring 5 minutes from now. -/
theorem claim_C4 (st : BankState) (username pw : String) (now : ℤ) (u : Pengguna ℤ)
    (hu : dapatkan_pengguna_by_username st username = some u) :
    (lock_aktif u now = true → login_pengguna st username pw now = (st, false)) ∧
    (lock_aktif u now = false → verifikasi_password u pw = true →
      (login_pengguna st username pw now).2 = true ∧
      dapatkan_pengguna_by_id (login_pengguna st username pw now).1 u.id =
        some { u with gagal_login_count := 0, akun_terkunci_hingga := none }) ∧
    (lock_aktif u now = false → verifikasi_password u pw = false →
      u.gagal_login_count + 1 < BATAS_PERCOBAAN_LOGIN →
      (login_pengguna st username pw now).2 = false ∧
      dapatkan_pengguna_by_id (login_pengguna st username pw now).1 u.id =
        some { u with gagal_login_count := u.gagal_login_count + 1 }) ∧
    (lock_aktif u now = false → verifikasi_password u pw = false →
      BATAS_PERCOBAAN_LOGIN ≤ u.gagal_login_count + 1 →
      (login_pengguna st username pw now).2 = false ∧
      dapatkan_pengguna_by_id (login_pengguna st username pw now).1 u.id =
        some { u with gagal_login_count := u.gagal_login_count + 1,
                      akun_terkunci_hingga := some (now + DURASI_KUNCI_AKUN_DETIK) }) := by
  refine ⟨?_, ?_, ?_, ?_⟩
  · intro hl
    exact login_pengguna_terkunci st username pw now u hu hl
  · intro hl hp
    rw [login_pengguna_benar st username pw now u hu hl hp]
    exact ⟨rfl, dapatkan_pengguna_by_id_simpan_self _ _⟩
  · intro hl hp hc
    rw [login_pengguna_salah_bawah st username pw now u hu hl hp hc]
    exact ⟨rfl, dapatkan_pengguna_by_id_simpan_self _ _⟩
  · intro hl hp hc
    rw [login_pengguna_salah_kunci st username pw now u hu hl hp hc]
    exact ⟨rfl, dapatkan_pengguna_by_id_simpan_self _ _⟩

/-- C7: PIN verification denies immediately when no PIN is set; it
denies after three wrong entries; it reads at most the first three
entries of the PIN stream; and an operation whose PIN verification
fails (here withdraw, the operation PIN failure guards) leaves the whole
persisted state — in particular the account's failed-login counter and
lockout timestamp — unchanged. -/
theorem claim_C7 (u : Pengguna ℤ) (pins pins' : ℕ → String) :
    (u.pin_hash = none → minta_pin_transaksi u pins = false) ∧
    (verifikasi_pin u (pins 0) = false → verifikasi_pin u (pins 1) = false →
      verifikasi_pin u (pins 2) = false → minta_pin_transaksi u pins = false) ∧
    ((∀ i, i < 3 → pins i = pins' i) →
      minta_pin_transaksi u pins = minta_pin_transaksi u pins') ∧
    (∀ st uid j txid now, minta_pin_transaksi u pins = false →
      dapatkan_pengguna_by_id st uid = some u →
      (withdraw_bank st uid j pins txid now).1 = st) := by
  refine ⟨?_, ?_, ?_, ?_⟩
  · intro h
    unfold minta_pin_transaksi
    rw [h]
  · intro h0 h1 h2
    unfold minta_pin_transaksi
    cases hp : u.pin_hash with
    | none => rfl
    | some s => rw [h0, h1, h2]; rfl
  · intro h
    unfold minta_pin_transaksi
    rw [h 0 (by norm_num), h 1 (by norm_num), h 2 (by norm_num)]
  · intro st uid j txid now hpin hu
    apply withdraw_bank_fail
    unfold withdraw_bank
    simp only [hu]
    split_ifs with h1 h2 h3
    · rfl
    · rfl
    · rw [hpin] at h3; exact absurd h3 (by simp)
    · rfl

/-- C10: adding a non-positive quantity of any product leaves the cart
untouched; adding a product that already has a cart line increases that
line's quantity by exactly the added amount, creates no new line, and
keeps the unit-price snapshot taken when the line was first added, even
when the catalog price passed in differs from the snapshot. -/
theorem claim_C10 (items : List ItemKeranjang) (produk : Produk ℤ) (jumlah : ℤ) :
    (jumlah ≤ 0 → tambah_item items produk jumlah = items) ∧
    (∀ it, items.find? (fun x => x.produk_id == produk.id) = some it → 0 < jumlah →
      (tambah_item items produk jumlah).find? (fun x => x.produk_id == produk.id) =
        some { it with jumlah := it.jumlah + jumlah } ∧
      ({ it with jumlah := it.jumlah + jumlah }).harga_satuan = it.harga_satuan ∧
      (tambah_item items produk jumlah).length = items.length) := by
  refine ⟨?_, ?_⟩
  · intro hj
    unfold tambah_item
    rw [if_pos hj]
  · intro it hfind hj
    unfold tambah_item
    rw [if_neg (not_le.mpr hj), hfind]
    exact ⟨find?_tambah_jumlah_pertama produk.id jumlah items it hfind, rfl,
           length_tambah_jumlah_pertama produk.id jumlah items⟩

/-- C1: a transfer that passes every precondition (no case-insensitive
self-transfer, destination exists, positive amount, amount within the
source balance, PIN verified) succeeds and conserves money: the stored
source loses exactly the amount, the stored destination gains exactly
the amount, and the sum of the two stored balances is unchanged. -/
theorem claim_C1 (st : BankState) (uid tujuan_nama : String) (j : Money)
    (pins : ℕ → String) (txid : String) (now : ℤ) (sumber tujuan : Pengguna ℤ)
    (hnd : (st.pengguna.map Pengguna.id).Nodup)
    (hs : dapatkan_pengguna_by_id st uid = some sumber)
    (hneq : str_lower tujuan_nama ≠ str_lower sumber.username)
    (ht : dapatkan_pengguna_by_username st tujuan_nama = some tujuan)
    (hj : 0 < j) (hbal : j ≤ sumber.saldo_bank)
    (hpin : minta_pin_transaksi sumber pins = true) :
    (transfer_dana_bank st uid tujuan_nama j pins txid now).2 = true ∧
    ∃ sumber' tujuan',
      dapatkan_pengguna_by_id (transfer_dana_bank st uid tujuan_nama j pins txid now).1
          sumber.id = some sumber' ∧
      dapatkan_pengguna_by_id (transfer_dana_bank st uid tujuan_nama j pins txid now).1
          tujuan.id = some tujuan' ∧
      sumber'.saldo_bank = sumber.saldo_bank - j ∧
      tujuan'.saldo_bank = tujuan.saldo_bank + j ∧
      sumber'.saldo_bank + tujuan'.saldo_bank = sumber.saldo_bank + tujuan.saldo_bank := by
  have hid : sumber.id ≠ tujuan.id := by
    intro he
    have hmem_s := List.mem_of_find?_eq_some hs
    have hmem_t := List.mem_of_find?_eq_some ht
    have hst : sumber = tujuan := nodup_key_mem_inj hnd hmem_s hmem_t he
    have htn : str_lower tujuan.username = str_lower tujuan_nama := by
      have := List.find?_some ht
      simpa [beq_iff_eq] using this
    exact hneq (by rw [← htn, ← hst])
  rw [transfer_dana_bank_eq st uid tujuan_nama j pins txid now sumber tujuan hs hneq ht
    hj hbal hpin]
  refine ⟨rfl,
    ⟨{ sumber with saldo_bank := sumber.saldo_bank - j,
                   riwayat_transaksi_bank_ids := sumber.riwayat_transaksi_bank_ids ++ [txid] },
     { tujuan with saldo_bank := tujuan.saldo_bank + j,
                   riwayat_transaksi_bank_ids := tujuan.riwayat_transaksi_bank_ids ++ [txid] },
     ?_, ?_, rfl, rfl, by ring⟩⟩
  · refine (dapatkan_pengguna_by_id_simpan_other _
        { tujuan with saldo_bank := tujuan.saldo_bank + j,
                      riwayat_transaksi_bank_ids := tujuan.riwayat_transaksi_bank_ids ++ [txid] }
        sumber.id (fun he => hid he.symm)).trans
      (dapatkan_pengguna_by_id_simpan_self _
        { sumber with saldo_bank := sumber.saldo_bank - j,
                      riwayat_transaksi_bank_ids := sumber.riwayat_transaksi_bank_ids ++ [txid] })
  · exact dapatkan_pengguna_by_id_simpan_self _
      { tujuan with saldo_bank := tujuan.saldo_bank + j,
                    riwayat_transaksi_bank_ids := tujuan.riwayat_transaksi_bank_ids ++ [txid] }

/-- C2: checkout is atomic.  When the success flag is false the state
and the cart are exactly as before — no record, no debit, no stock
change.  When it is true, exactly one Pembayaran-Toko transaction and
exactly one order are appended, the buyer is debited exactly the cart
total with both record ids appended to the histories, the cart is
cleared, and every cart line's product loses exactly the line quantity
of stock. -/
theorem claim_C2 (st : BankState) (uid : String) (items : List ItemKeranjang)
    (konfirmasi : Bool) (pins : ℕ → String) (txid oid : String) (now : ℤ) :
    ((proses_pembayaran_toko st uid items konfirmasi pins txid oid now).2.2 = false →
      (proses_pembayaran_toko st uid items konfirmasi pins txid oid now).1 = st ∧
      (proses_pembayaran_toko st uid items konfirmasi pins txid oid now).2.1 = items) ∧
    (∀ u, dapatkan_pengguna_by_id st uid = some u →
      (items.map (fun it => it.produk_id)).Nodup →
      (proses_pembayaran_toko st uid items konfirmasi pins txid oid now).2.2 = true →
      (proses_pembayaran_toko st uid items konfirmasi pins txid oid now).1.transaksi_bank =
        st.transaksi_bank ++
          [{ id := txid, user_id_sumber := u.id, user_id_tujuan := none,
             jenis_transaksi := "Pembayaran Toko", jumlah := total_belanja items,
             keterangan := "Pembelian di Bear Mart", timestamp := now,
             saldo_akhir_sumber := u.saldo_bank - total_belanja items,
             saldo_akhir_tujuan := none }] ∧
      (proses_pembayaran_toko st uid items konfirmasi pins txid oid now).1.pesanan_toko =
        st.pesanan_toko ++
          [{ id := oid, user_id := u.id, items_pesanan := items,
             total_harga := total_belanja items, metode_pembayaran := "Bank Bear Mart",
             status_pesanan := "Selesai", timestamp := now }] ∧
      dapatkan_pengguna_by_id
          (proses_pembayaran_toko st uid items konfirmasi pins txid oid now).1 uid =
        some { u with saldo_bank := u.saldo_bank - total_belanja items,
                      riwayat_transaksi_bank_ids := u.riwayat_transaksi_bank_ids ++ [txid],
                      riwayat_pesanan_toko_ids := u.riwayat_pesanan_toko_ids ++ [oid] } ∧
      (proses_pembayaran_toko st uid items konfirmasi pins txid oid now).2.1 = [] ∧
      List.Forall₂ (fun it pr =>
          dapatkan_produk_by_id st it.produk_id = some pr ∧
          dapatkan_produk_by_id
              (proses_pembayaran_toko st uid items konfirmasi pins txid oid now).1
              it.produk_id =
            some { pr with stok := pr.stok - it.jumlah, diperbarui_pada := now })
        items (produk_yang_diubah st items)) := by
  constructor
  · exact proses_pembayaran_toko_fail st uid items konfirmasi pins txid oid now
  · intro u hu hnd hflag
    rcases proses_pembayaran_toko_sukses st uid items konfirmasi pins txid oid now hflag
      with ⟨u₀, hu₀, hne, hbal, hk, hpin, hstok⟩
    rw [hu] at hu₀
    cases hu₀
    have hid : u.id = uid := by
      have := List.find?_some hu
      simpa [beq_iff_eq] using this
    subst hid
    rw [proses_pembayaran_toko_eq st u.id items konfirmasi pins txid oid now u hu hne
      hbal hk hpin hstok]
    have F2 := stok_semua_cukup_forall₂ st items hstok
    have halign : List.Forall₂ (fun it pr => pr.id = it.produk_id) items
        (produk_yang_diubah st items) := F2.imp (fun a b h => h.2.1)
    have hzip : kurangi_stok_semua items (produk_yang_diubah st items) now =
        List.zipWith
          (fun it pr => { pr with stok := pr.stok - it.jumlah, diperbarui_pada := now })
          items (produk_yang_diubah st items) :=
      kurangi_stok_semua_zip now items (produk_yang_diubah st items) hnd halign
    have hids : (kurangi_stok_semua items (produk_yang_diubah st items) now).map Produk.id =
        items.map (fun it => it.produk_id) := by
      rw [hzip]
      exact map_id_zipWith_kurangi now halign
    have hnd' : ((kurangi_stok_semua items (produk_yang_diubah st items) now).map
        Produk.id).Nodup := by rw [hids]; exact hnd
    have hmem := forall₂_zipWith_mem
      (fun it pr => { pr with stok := pr.stok - it.jumlah, diperbarui_pada := now }) F2
    refine ⟨?_, ?_, ?_, rfl, ?_⟩
    · show (List.foldl (fun s pr => simpan_produk s pr now) _ _).transaksi_bank = _
      rw [foldl_simpan_produk_transaksi]
      rfl
    · show (List.foldl (fun s pr => simpan_produk s pr now) _ _).pesanan_toko = _
      rw [foldl_simpan_produk_pesanan]
      rfl
    · show (List.foldl (fun s pr => simpan_produk s pr now) _ _).pengguna.find? _ = _
      rw [foldl_simpan_produk_pengguna]
      exact dapatkan_pengguna_by_id_simpan_self _
        { u with saldo_bank := u.saldo_bank - total_belanja items,
                 riwayat_transaksi_bank_ids := u.riwayat_transaksi_bank_ids ++ [txid],
                 riwayat_pesanan_toko_ids := u.riwayat_pesanan_toko_ids ++ [oid] }
    · refine hmem.imp ?_
      rintro it pr ⟨⟨hfind, hidpr, hle⟩, hm⟩
      refine ⟨hfind, ?_⟩
      rw [← hzip] at hm
      rw [← hidpr]
      exact foldl_simpan_produk_find?_self now _ _ hnd' _ hm

/-! Success-condition extraction for the remaining operations. -/

theorem deposit_bank_sukses (st : BankState) (uid : String) (j : Money) (txid : String)
    (now : ℤ) (h : (deposit_bank st uid j txid now).2 = true) :
    ∃ u, dapatkan_pengguna_by_id st uid = some u ∧ 0 < j := by
  unfold deposit_bank at h
  cases hm : dapatkan_pengguna_by_id st uid with
  | none => rw [hm] at h; exact absurd h (by simp)
  | some u =>
      simp only [hm] at h
      split_ifs at h with h1
      exact ⟨u, rfl, lt_of_not_le h1⟩

theorem withdraw_bank_sukses (st : BankState) (uid : String) (j : Money)
    (pins : ℕ → String) (txid : String) (now : ℤ)
    (h : (withdraw_bank st uid j pins txid now).2 = true) :
    ∃ u, dapatkan_pengguna_by_id st uid = some u ∧ 0 < j ∧ j ≤ u.saldo_bank ∧
      minta_pin_transaksi u pins = true := by
  unfold withdraw_bank at h
  cases hm : dapatkan_pengguna_by_id st uid with
  | none => rw [hm] at h; exact absurd h (by simp)
  | some u =>
      simp only [hm] at h
      split_ifs at h with h1 h2 h3
      exact ⟨u, rfl, lt_of_not_le h1, not_lt.mp h2, h3⟩

theorem transfer_dana_bank_sukses (st : BankState) (uid tujuan_nama : String) (j : Money)
    (pins : ℕ → String) (txid : String) (now : ℤ)
    (h : (transfer_dana_bank st uid tujuan_nama j pins txid now).2 = true) :
    ∃ sumber tujuan, dapatkan_pengguna_by_id st uid = some sumber ∧
      str_lower tujuan_nama ≠ str_lower sumber.username ∧
      dapatkan_pengguna_by_username st tujuan_nama = some tujuan ∧
      0 < j ∧ j ≤ sumber.saldo_bank ∧ minta_pin_transaksi sumber pins = true := by
  unfold transfer_dana_bank at h
  cases hm : dapatkan_pengguna_by_id st uid with
  | none => rw [hm] at h; exact absurd h (by simp)
  | some sumber =>
      simp only [hm] at h
      by_cases hself : (str_lower tujuan_nama == str_lower sumber.username) = true
      · rw [if_pos hself] at h; exact absurd h (by simp)
      · rw [if_neg hself] at h
        cases hd : dapatkan_pengguna_by_username st tujuan_nama with
        | none => rw [hd] at h; exact absurd h (by simp)
        | some tujuan =>
            simp only [hd] at h
            split_ifs at h with h1 h2 h3
            exact ⟨sumber, tujuan, rfl, by simpa [beq_iff_eq] using hself, rfl,
              lt_of_not_le h1, not_lt.mp h2, h3⟩

/-! Preservation of non-negative balances and stocks. -/

theorem NonNegState_simpan_pengguna (st : BankState) (p : Pengguna ℤ)
    (h : NonNegState st) (hp : 0 ≤ p.saldo_bank) : NonNegState (simpan_pengguna st p) := by
  refine ⟨?_, h.2⟩
  intro q hq
  rcases mem_simpan_pengguna st p q hq with rfl | hq'
  · exact hp
  · exact h.1 q hq'

theorem NonNegState_simpan_produk (st : BankState) (p : Produk ℤ) (now : ℤ)
    (h : NonNegState st) (hp : 0 ≤ p.stok) : NonNegState (simpan_produk st p now) := by
  refine ⟨h.1, ?_⟩
  intro q hq
  rcases mem_tinydb_upsert hq with rfl | hq'
  · exact hp
  · exact h.2 q hq'

theorem NonNegState_foldl_simpan_produk (now : ℤ) :
    ∀ (us : List (Produk ℤ)) (st : BankState), NonNegState st →
      (∀ q ∈ us, 0 ≤ q.stok) →
      NonNegState (us.foldl (fun s pr => simpan_produk s pr now) st) := by
  intro us
  induction us with
  | nil => intro st h _; exact h
  | cons u rest ih =>
      intro st h hq
      rw [List.foldl_cons]
      exact ih _ (NonNegState_simpan_produk st u now h (hq u (List.mem_cons_self u rest)))
        (fun q hqr => hq q (List.mem_cons_of_mem u hqr))

theorem NonNegState_applyOp (st : BankState) (op : Op) (hwf : op.wf)
    (h : NonNegState st) : NonNegState (applyOp st op) := by
  cases op with
  | deposit uid j txid now =>
      show NonNegState (deposit_bank st uid j txid now).1
      cases hflag : (deposit_bank st uid j txid now).2 with
      | false => rw [deposit_bank_fail st uid j txid now hflag]; exact h
      | true =>
          rcases deposit_bank_sukses st uid j txid now hflag with ⟨u, hu, hj⟩
          rw [deposit_bank_eq st uid j txid now u hu hj]
          exact NonNegState_simpan_pengguna _ _ h
            (add_nonneg (h.1 u (List.mem_of_find?_eq_some hu)) (le_of_lt hj))
  | withdraw uid j pins txid now =>
      show NonNegState (withdraw_bank st uid j pins txid now).1
      cases hflag : (withdraw_bank st uid j pins txid now).2 with
      | false => rw [withdraw_bank_fail st uid j pins txid now hflag]; exact h
      | true =>
          rcases withdraw_bank_sukses st uid j pins txid now hflag with ⟨u, hu, hj, hbal, hpin⟩
          rw [withdraw_bank_eq st uid j pins txid now u hu hj hbal hpin]
          exact NonNegState_simpan_pengguna _ _ h (sub_nonneg.mpr hbal)
  | transfer uid tujuan_nama j pins txid now =>
      show NonNegState (transfer_dana_bank st uid tujuan_nama j pins txid now).1
      cases hflag : (transfer_dana_bank st uid tujuan_nama j pins txid now).2 with
      | false => rw [transfer_dana_bank_fail st uid tujuan_nama j pins txid now hflag]; exact h
      | true =>
          rcases transfer_dana_bank_sukses st uid tujuan_nama j pins txid now hflag
            with ⟨sumber, tujuan, hs, hneq, ht, hj, hbal, hpin⟩
          rw [transfer_dana_bank_eq st uid tujuan_nama j pins txid now sumber tujuan hs
            hneq ht hj hbal hpin]
          exact NonNegState_simpan_pengguna _ _
            (NonNegState_simpan_pengguna _ _ h (sub_nonneg.mpr hbal))
            (add_nonneg (h.1 tujuan (List.mem_of_find?_eq_some ht)) (le_of_lt hj))
  | checkout uid items konfirmasi pins txid oid now =>
      show NonNegState (proses_pembayaran_toko st uid items konfirmasi pins txid oid now).1
      cases hflag : (proses_pembayaran_toko st uid items konfirmasi pins txid oid now).2.2 with
      | false =>
          rw [(proses_pembayaran_toko_fail st uid items konfirmasi pins txid oid now hflag).1]
          exact h
      | true =>
          rcases proses_pembayaran_toko_sukses st uid items konfirmasi pins txid oid now hflag
            with ⟨u, hu, hne, hbal, hk, hpin, hstok⟩
          rw [proses_pembayaran_toko_eq st uid items konfirmasi pins txid oid now u hu hne
            hbal hk hpin hstok]
          have hnd : (items.map (fun it => it.produk_id)).Nodup := hwf
          have F2 := stok_semua_cukup_forall₂ st items hstok
          have halign : List.Forall₂ (fun it pr => pr.id = it.produk_id) items
              (produk_yang_diubah st items) := F2.imp (fun a b hr => hr.2.1)
          have hzip := kurangi_stok_semua_zip now items (produk_yang_diubah st items) hnd halign
          refine NonNegState_foldl_simpan_produk now _ _
            (NonNegState_simpan_pengguna _ _ h (sub_nonneg.mpr (not_lt.mp hbal))) ?_
          rw [hzip]
          exact forall_mem_zipWith _ F2 (fun a b hr => sub_nonneg.mpr hr.2.2)

/-- C5: starting from any state with non-negative balances and stocks,
any sequence of ledger operations (with carts keyed on product id, as
the session cart guarantees) keeps every account balance and every
product stock non-negative; no operation commits a violating change. -/
theorem claim_C5 (ops : List Op) : ∀ (st : BankState), (∀ op ∈ ops, op.wf) →
    NonNegState st → NonNegState (ops.foldl applyOp st) := by
  induction ops with
  | nil => intro st _ h; exact h
  | cons op rest ih =>
      intro st hwf h
      rw [List.foldl_cons]
      exact ih _ (fun o ho => hwf o (List.mem_cons_of_mem op ho))
        (NonNegState_applyOp st op (hwf op (List.mem_cons_self op rest)) h)

theorem applyConfigOp_preserves (tbl : List KonfigDoc) (op : ConfigOp)
    (hids : ∀ d ∈ tbl, d.id = some SYSTEM_CONFIG_ID) (hlen : tbl.length ≤ 1) :
    (∀ d ∈ applyConfigOp tbl op, d.id = some SYSTEM_CONFIG_ID) ∧
      (applyConfigOp tbl op).length ≤ 1 := by
  cases op with
  | read =>
      cases tbl with
      | nil =>
          constructor
          · intro d hd
            rcases List.mem_singleton.mp hd with rfl
            rfl
          · decide
      | cons c rest => exact ⟨hids, hlen⟩
  | save c =>
      show (∀ d ∈ simpan_konfigurasi tbl c, _) ∧ (simpan_konfigurasi tbl c).length ≤ 1
      unfold simpan_konfigurasi
      have hc' : (if c.id == some SYSTEM_CONFIG_ID then c
          else { c with id := some SYSTEM_CONFIG_ID }).id = some SYSTEM_CONFIG_ID := by
        by_cases hc : (c.id == some SYSTEM_CONFIG_ID) = true
        · rw [if_pos hc]; simpa [beq_iff_eq] using hc
        · rw [if_neg hc]
      unfold tinydb_upsert
      by_cases hany : tbl.any (fun d => d.id == some SYSTEM_CONFIG_ID) = true
      · rw [if_pos hany]
        constructor
        · intro d hd
          rcases List.mem_map.mp hd with ⟨y, hy, hdy⟩
          by_cases hcy : (y.id == some SYSTEM_CONFIG_ID) = true
          · rw [if_pos hcy] at hdy; rw [← hdy]; exact hc'
          · rw [if_neg hcy] at hdy; rw [← hdy]; exact hids y hy
        · rw [List.length_map]; exact hlen
      · rw [if_neg hany]
        cases tbl with
        | nil =>
            constructor
            · intro d hd
              rcases List.mem_singleton.mp hd with rfl
              exact hc'
            · simp
        | cons d rest =>
            exfalso
            apply hany
            rw [List.any_cons]
            simp [hids d (List.mem_cons_self d rest)]

/-- C8: the system configuration is a singleton — starting from the
empty configuration table, after any sequence of reads and saves at
most one document exists and it carries the fixed well-known id; every
read returns the stored document merged over the hard-coded defaults,
so every expected field is present; and every save is exactly one
upsert keyed on the fixed configuration id. -/
theorem claim_C8 (ops : List ConfigOp) :
    ((ops.foldl applyConfigOp []).length ≤ 1 ∧
      ∀ d ∈ ops.foldl applyConfigOp [], d.id = some SYSTEM_CONFIG_ID) ∧
    (∀ tbl : List KonfigDoc,
      (dapatkan_konfigurasi tbl).1.id.isSome ∧
      (dapatkan_konfigurasi tbl).1.nama_toko.isSome ∧
      (dapatkan_konfigurasi tbl).1.kategori_produk.isSome ∧
      (dapatkan_konfigurasi tbl).1.admin_dibuat.isSome ∧
      (dapatkan_konfigurasi tbl).1.setup_selesai.isSome ∧
      (dapatkan_konfigurasi tbl).1.id = some SYSTEM_CONFIG_ID) ∧
    (∀ (tbl : List KonfigDoc) (c : KonfigDoc), simpan_konfigurasi tbl c =
      tinydb_upsert tbl (fun d => d.id == some SYSTEM_CONFIG_ID)
        (if c.id == some SYSTEM_CONFIG_ID then c
         else { c with id := some SYSTEM_CONFIG_ID })) := by
  refine ⟨?_, ?_, fun tbl c => rfl⟩
  · have main : ∀ (l : List ConfigOp) (tbl : List KonfigDoc),
        (∀ d ∈ tbl, d.id = some SYSTEM_CONFIG_ID) → tbl.length ≤ 1 →
        (l.foldl applyConfigOp tbl).length ≤ 1 ∧
          ∀ d ∈ l.foldl applyConfigOp tbl, d.id = some SYSTEM_CONFIG_ID := by
      intro l
      induction l with
      | nil => intro tbl hids hlen; exact ⟨hlen, hids⟩
      | cons op rest ih =>
          intro tbl hids hlen
          rw [List.foldl_cons]
          have step := applyConfigOp_preserves tbl op hids hlen
          exact ih _ step.1 step.2
    have h := main ops [] (fun d hd => absurd hd (List.not_mem_nil d)) (by decide)
    exact ⟨h.1, h.2⟩
  · intro tbl
    cases tbl with
    | nil => exact ⟨rfl, rfl, rfl, rfl, rfl, rfl⟩
    | cons c rest => exact ⟨rfl, rfl, rfl, rfl, rfl, rfl⟩

/-- C9 (amended): in every persisted document, every MoneyValue field
serializes as its plain numeric amount with no currency tag, and every
timestamp field serializes as the Python isoformat string — ISO 8601
with a T separator (and fractional seconds when microseconds are
nonzero) — not as the space-separated YYYY-MM-DD HH:MM:SS form, which
the code uses only for console display. -/
theorem claim_C9 (p : Pengguna DateTime) (pr : Produk DateTime)
    (t : TransaksiBank DateTime) (o : PesananToko DateTime) (it : ItemKeranjang) :
    lookupField (model_dump_pengguna p) "saldo_bank" = some (Json.num p.saldo_bank) ∧
    lookupField (model_dump_produk pr) "harga" = some (Json.num pr.harga) ∧
    lookupField (model_dump_transaksi t) "jumlah" = some (Json.num t.jumlah) ∧
    lookupField (model_dump_transaksi t) "saldo_akhir_sumber" =
      some (Json.num t.saldo_akhir_sumber) ∧
    lookupField (model_dump_pesanan o) "total_harga" = some (Json.num o.total_harga) ∧
    lookupField (model_dump_item it) "harga_satuan" = some (Json.num it.harga_satuan) ∧
    lookupField (model_dump_pengguna p) "dibuat_pada" =
      some (Json.str (datetime_isoformat p.dibuat_pada)) ∧
    lookupField (model_dump_produk pr) "dibuat_pada" =
      some (Json.str (datetime_isoformat pr.dibuat_pada)) ∧
    lookupField (model_dump_produk pr) "diperbarui_pada" =
      some (Json.str (datetime_isoformat pr.diperbarui_pada)) ∧
    lookupField (model_dump_transaksi t) "timestamp" =
      some (Json.str (datetime_isoformat t.timestamp)) ∧
    lookupField (model_dump_pesanan o) "timestamp" =
      some (Json.str (datetime_isoformat o.timestamp)) :=
  ⟨rfl, rfl, rfl, rfl, rfl, rfl, rfl, rfl, rfl, rfl, rfl⟩

/-- C9, refuted as stated: the persisted timestamp of a concrete
transaction is the isoformat string 2024-01-02T03:04:05, not the
spec's space-separated form 2024-01-02 03:04:05. -/
theorem claim_C9_counterexample :
    lookupField (model_dump_transaksi transaksiContoh) "timestamp" ≠
      some (Json.str (spec_timestamp_form dtContoh)) := by
  rw [show lookupField (model_dump_transaksi transaksiContoh) "timestamp" =
        some (Json.str "2024-01-02T03:04:05") from rfl,
      show spec_timestamp_form dtContoh = "2024-01-02 03:04:05" from rfl]
  simp only [ne_eq, Option.some.injEq, Json.str.injEq]
  decide

/-- C1 at concrete data: alice (50000) transfers 20000 to bob (10000),
addressing him case-insensitively; the balances sum is conserved. -/
theorem claim_C1_witness :
    (transfer_dana_bank contohState "u1" "Bob" 20000 pinsBenarA "trx1" 7).2 = true ∧
    ∃ sumber' tujuan',
      dapatkan_pengguna_by_id
          (transfer_dana_bank contohState "u1" "Bob" 20000 pinsBenarA "trx1" 7).1
          akunA.id = some sumber' ∧
      dapatkan_pengguna_by_id
          (transfer_dana_bank contohState "u1" "Bob" 20000 pinsBenarA "trx1" 7).1
          akunB.id = some tujuan' ∧
      sumber'.saldo_bank = akunA.saldo_bank - 20000 ∧
      tujuan'.saldo_bank = akunB.saldo_bank + 20000 ∧
      sumber'.saldo_bank + tujuan'.saldo_bank = akunA.saldo_bank + akunB.saldo_bank :=
  claim_C1 contohState "u1" "Bob" 20000 pinsBenarA "trx1" 7 akunA akunB
    (by decide) (by decide) (by decide) (by decide) (by decide) (by decide) (by decide)

/-- C2 at concrete data: alice checks out a two-unit cart line of
produkS; she is debited the total with both record ids appended, and
the product loses exactly two units of stock. -/
theorem claim_C2_witness :
    dapatkan_pengguna_by_id
        (proses_pembayaran_toko contohState "u1" [itemS] true pinsBenarA "trx2" "ord1" 9).1
        "u1" =
      some { akunA with
        saldo_bank := akunA.saldo_bank - total_belanja [itemS],
        riwayat_transaksi_bank_ids := akunA.riwayat_transaksi_bank_ids ++ ["trx2"],
        riwayat_pesanan_toko_ids := akunA.riwayat_pesanan_toko_ids ++ ["ord1"] } ∧
    List.Forall₂ (fun it pr =>
        dapatkan_produk_by_id contohState it.produk_id = some pr ∧
        dapatkan_produk_by_id
            (proses_pembayaran_toko contohState "u1" [itemS] true pinsBenarA "trx2" "ord1" 9).1
            it.produk_id =
          some { pr with stok := pr.stok - it.jumlah, diperbarui_pada := 9 })
      [itemS] (produk_yang_diubah contohState [itemS]) := by
  have hbal : ¬ akunA.saldo_bank < total_belanja [itemS] := by
    norm_num [total_belanja, ItemKeranjang.subtotal, itemS, akunA]
  have hflag :
      (proses_pembayaran_toko contohState "u1" [itemS] true pinsBenarA "trx2" "ord1" 9).2.2 =
        true := by
    rw [proses_pembayaran_toko_eq contohState "u1" [itemS] true pinsBenarA "trx2" "ord1" 9
      akunA (by decide) (by decide) hbal rfl (by decide) (by decide)]
  have h := (claim_C2 contohState "u1" [itemS] true pinsBenarA "trx2" "ord1" 9).2 akunA
    (by decide) (by decide) hflag
  exact ⟨h.2.2.1, h.2.2.2.2⟩

/-- C3 at concrete data: bob (balance 10000) asks to withdraw 20000;
the request is rejected with the state untouched, whatever the PIN
stream would have answered. -/
theorem claim_C3_witness :
    akunB.saldo_bank < 20000 ∧
    withdraw_bank contohState "u2" 20000 pinsSalah "trx3" 11 = (contohState, false) :=
  ⟨by decide,
   (claim_C3 contohState "u2" 20000 pinsSalah "trx3" 11).2.2.2 akunB
     (by decide) (by decide) pinsSalah⟩

/-- C4 at concrete data: carol has failed twice; her third consecutive
wrong password locks the stored account until 5 minutes from now. -/
theorem claim_C4_witness :
    dapatkan_pengguna_by_username contohState "carol" = some akunC ∧
    (login_pengguna contohState "carol" "wrong" 50).2 = false ∧
    dapatkan_pengguna_by_id (login_pengguna contohState "carol" "wrong" 50).1 akunC.id =
      some { akunC with gagal_login_count := akunC.gagal_login_count + 1,
                        akun_terkunci_hingga := some (50 + DURASI_KUNCI_AKUN_DETIK) } := by
  have h := (claim_C4 contohState "carol" "wrong" 50 akunC (by decide)).2.2.2
    (by decide) (by decide) (by decide)
  exact ⟨by decide, h.1, h.2⟩

/-- C5 at concrete data: a deposit, a withdraw, a transfer and a
checkout run in sequence from contohState keep every balance and stock
non-negative. -/
theorem claim_C5_witness :
    NonNegState contohState ∧ NonNegState (opsContoh.foldl applyOp contohState) := by
  have hwf : ∀ op ∈ opsContoh, op.wf := by
    intro op hop
    simp only [opsContoh, List.mem_cons, List.not_mem_nil, or_false] at hop
    rcases hop with rfl | rfl | rfl | rfl
    · trivial
    · trivial
    · trivial
    · show ([itemS].map (fun it => it.produk_id)).Nodup
      decide
  exact ⟨by decide, claim_C5 opsContoh contohState hwf (by decide)⟩

/-- C6 at concrete data: carol (balance 0) deposits 100000 — exactly
one Deposit record with amount 100000 and resulting balance 100000 is
appended; a deposit of -5 is rejected without mutation. -/
theorem claim_C6_witness :
    deposit_bank contohState "u3" (-5) "trx4" 13 = (contohState, false) ∧
    (deposit_bank contohState "u3" 100000 "trx4" 13).1.transaksi_bank =
      contohState.transaksi_bank ++
        [{ id := "trx4", user_id_sumber := akunC.id, user_id_tujuan := none,
           jenis_transaksi := "Deposit", jumlah := 100000,
           keterangan := "Setoran ke akun", timestamp := 13,
           saldo_akhir_sumber := akunC.saldo_bank + 100000, saldo_akhir_tujuan := none }] ∧
    dapatkan_pengguna_by_id (deposit_bank contohState "u3" 100000 "trx4" 13).1 "u3" =
      some { akunC with
        saldo_bank := akunC.saldo_bank + 100000,
        riwayat_transaksi_bank_ids := akunC.riwayat_transaksi_bank_ids ++ ["trx4"] } ∧
    (deposit_bank contohState "u3" 100000 "trx4" 13).2 = true := by
  have h := (claim_C6 contohState "u3" 100000 "trx4" 13).2.1 akunC (by decide) (by decide)
  exact ⟨(claim_C6 contohState "u3" (-5) "trx4" 13).1 (by decide), h.1, h.2.1, h.2.2⟩

/-- C7 at concrete data: carol has no PIN, so verification denies at
once; alice with three wrong entries is denied; a withdraw guarded by a
failing PIN leaves the state untouched. -/
theorem claim_C7_witness :
    akunC.pin_hash = none ∧ minta_pin_transaksi akunC pinsSalah = false ∧
    minta_pin_transaksi akunA pinsSalah = false ∧
    (withdraw_bank contohState "u1" 500 pinsSalah "trx5" 17).1 = contohState :=
  ⟨rfl, (claim_C7 akunC pinsSalah pinsSalah).1 rfl,
   (claim_C7 akunA pinsSalah pinsSalah).2.1 (by decide) (by decide) (by decide),
   (claim_C7 akunA pinsSalah pinsSalah).2.2.2 contohState "u1" 500 "trx5" 17
     (by decide) (by decide)⟩

/-- C10 at concrete data: adding produkS again after a price change
bumps the existing line from 2 to 5 units while keeping the old 18500
price snapshot, and adding 0 units changes nothing. -/
theorem claim_C10_witness :
    tambah_item [itemS] produkS2 0 = [itemS] ∧
    (tambah_item [itemS] produkS2 3).find? (fun x => x.produk_id == produkS2.id) =
      some { itemS with jumlah := itemS.jumlah + 3 } ∧
    (tambah_item [itemS] produkS2 3).length = 1 ∧
    produkS2.harga ≠ itemS.harga_satuan := by
  have h := (claim_C10 [itemS] produkS2 3).2 itemS (by decide) (by decide)
  exact ⟨(claim_C10 [itemS] produkS2 0).1 (by decide), h.1, h.2.2, by decide⟩
